import Mathlib

set_option autoImplicit false

/-!
# NearHome stream-gateway: shallow embedding and verification

This file gives a shallow embedding in Lean 4 of the stream data plane of the
NearHome repository (`apps/stream-gateway/src/app.ts`) and proves properties of
it: tenant isolation, token verification order, session lifecycle, provision
idempotence and version monotonicity, sweep determinism, and the playback
read-retry policy.

Modelling conventions:
* JavaScript `Map` objects (insertion-ordered, unique keys) are embedded as
  association lists (`Store`), with `Store.set` replacing in place and
  appending fresh keys, exactly as `Map.set` does.
* ISO-8601 timestamp strings produced by `nowIso()` / consumed by
  `Date.parse` are embedded as integer epoch milliseconds (the code only ever
  compares the parsed values, and `Date.parse ∘ toISOString` is the identity
  on the millisecond clock).
* `Math.random()`-derived values (health latency/jitter samples, the probe
  roll) are threaded as explicit parameters; the random numeric health fields
  (`latencyMs`, `packetLossPct`, `jitterMs`) are not represented because no
  code path reads them back.
* External library functions from outside the repository (node:crypto
  HMAC-SHA256, base64url decoding + `JSON.parse` + the zod payload schema's
  field extraction) are parameters of a `CryptoEnv`; the checks the gateway
  itself performs on their results are embedded faithfully.
* Fallible handlers (`throw new ApiDomainError`) are embedded as `Except`
  over an `ApiErr` carrying the HTTP status and `code`.
-/

/-- Key-value store with string keys embedding a JavaScript `Map`:
insertion-ordered association list, `set` replaces in place. -/
abbrev Store (α : Type) := List (String × α)

/-- `Map.get`: the value at `k`, if present. -/
def Store.get {α : Type} (m : Store α) (k : String) : Option α :=
  match m.find? (fun kv => kv.1 = k) with
  | some kv => some kv.2
  | none => none

/-- `Map.set`: replace the binding of `k` in place, or append it. -/
def Store.set {α : Type} (m : Store α) (k : String) (v : α) : Store α :=
  match m with
  | [] => [(k, v)]
  | kv :: rest => if kv.1 = k then (k, v) :: rest else kv :: Store.set rest k v

/-- Transform every value of the store, keeping keys and order (the effect of
iterating a `Map` and calling `set` on each visited key). -/
def Store.mapValues {α : Type} (f : α → α) (m : Store α) : Store α :=
  m.map (fun kv => (kv.1, f kv.2))

theorem Store.get_nil {α : Type} (k : String) : Store.get ([] : Store α) k = none := rfl

theorem Store.get_cons {α : Type} (kv : String × α) (rest : Store α) (k : String) :
    Store.get (kv :: rest) k = if kv.1 = k then some kv.2 else rest.get k := by
  by_cases h : kv.1 = k <;> simp [Store.get, List.find?, h]

theorem Store.get_set {α : Type} (m : Store α) (k k' : String) (v : α) :
    (Store.set m k v).get k' = if k' = k then some v else m.get k' := by
  induction m with
  | nil =>
    by_cases h : k' = k
    · subst h; simp [Store.set, Store.get_cons, Store.get_nil]
    · have hne : ¬ (k = k') := fun hh => h hh.symm
      simp [Store.set, Store.get_cons, Store.get_nil, hne, h]
  | cons kv rest ih =>
    by_cases hk : kv.1 = k
    · subst hk
      simp only [Store.set, if_pos rfl]
      by_cases h : k' = kv.1
      · subst h; simp [Store.get_cons]
      · have h2 : ¬ (kv.1 = k') := fun hh => h hh.symm
        simp [Store.get_cons, h, h2]
    · simp only [Store.set, if_neg hk]
      by_cases hk' : kv.1 = k'
      · have h : ¬ (k' = k) := fun hh => hk (hk'.trans hh)
        simp [Store.get_cons, hk', h]
      · simp [Store.get_cons, hk', ih]

theorem Store.get_mapValues {α : Type} (f : α → α) (m : Store α) (k : String) :
    (Store.mapValues f m).get k = (m.get k).map f := by
  induction m with
  | nil => simp [Store.mapValues, Store.get_nil]
  | cons kv rest ih =>
    by_cases hk : kv.1 = k
    · simp [Store.mapValues, Store.get_cons, hk]
    · simp only [Store.mapValues, List.map] at ih ⊢
      simp [Store.get_cons, hk, ih]

/-! ## Data model (`app.ts` type declarations) -/

/-- `transport` field of `StreamSource`. -/
inductive Transport
  | auto
  | tcp
  | udp
deriving DecidableEq, Repr

/-- `codecHint` field of `StreamSource`. -/
inductive CodecHint
  | h264
  | h265
  | mpeg4
  | unknown
deriving DecidableEq, Repr

/-- `StreamSource` from `app.ts`. -/
structure StreamSource where
  transport : Transport
  codecHint : CodecHint
  targetProfiles : List String
deriving DecidableEq, Repr

/-- `StreamStatus` from `app.ts`. -/
inductive StreamStatus
  | provisioning
  | ready
  | stopped
deriving DecidableEq, Repr

/-- `Connectivity` from `app.ts`. -/
inductive Connectivity
  | online
  | degraded
  | offline
deriving DecidableEq, Repr

/-- `StreamHealth` from `app.ts`. The random numeric samples `latencyMs`,
`packetLossPct`, `jitterMs` (drawn from `Math.random()` and never read back
by any code path) are not represented. -/
structure StreamHealth where
  connectivity : Connectivity
  error : Option String
  checkedAt : Int
deriving DecidableEq, Repr

/-- `buildHealth` from `app.ts` (its deterministic fields; `nowIso()` is the
`now` parameter). -/
def buildHealth (c : Connectivity) (err : Option String) (now : Int) : StreamHealth :=
  match c with
  | .online => { connectivity := c, error := err, checkedAt := now }
  | .degraded => { connectivity := c, error := some (err.getD "high jitter / packet loss"), checkedAt := now }
  | .offline => { connectivity := c, error := some (err.getD "stream unreachable"), checkedAt := now }

/-- `StreamEntry` from `app.ts`; ISO timestamps are epoch milliseconds. -/
structure StreamEntry where
  tenantId : String
  cameraId : String
  rtspUrl : String
  source : StreamSource
  version : Nat
  status : StreamStatus
  health : StreamHealth
  updatedAt : Int
deriving DecidableEq, Repr

/-- `SessionStatus` from `app.ts`. -/
inductive SessionStatus
  | issued
  | active
  | ended
  | expired
deriving DecidableEq, Repr

/-- `StreamSessionEntry` from `app.ts`; ISO timestamps are epoch
milliseconds, nullable fields are `Option`. -/
structure StreamSessionEntry where
  tenantId : String
  cameraId : String
  sid : String
  sub : String
  status : SessionStatus
  issuedAt : Int
  activatedAt : Option Int
  endedAt : Option Int
  expiresAt : Int
  lastSeenAt : Int
  endReason : Option String
deriving DecidableEq, Repr

/-- `streamKey` from `app.ts`. -/
def streamKey (tenantId cameraId : String) : String :=
  tenantId ++ ":" ++ cameraId

/-- `streamSessionKey` from `app.ts`. -/
def streamSessionKey (tenantId cameraId sid : String) : String :=
  tenantId ++ ":" ++ cameraId ++ ":" ++ sid

/-- The whole mutable state of `buildApp`: the `streams` map, the
`streamSessions` map and the `playbackReadRetryCounters` metric map (the
other metric maps and the sweep counter are not referenced by the claims). -/
structure GatewayState where
  streams : Store StreamEntry
  sessions : Store StreamSessionEntry
  readRetryCounters : Store Nat
deriving DecidableEq, Repr

/-- Configuration read from the environment in `buildApp`. -/
structure GatewayConfig where
  sessionIdleTtlMs : Int
  playbackReadRetries : Nat
  playbackReadRetryBaseMs : Nat
  playbackReadRetryMaxMs : Nat
deriving DecidableEq, Repr

/-! ## Token verification (`verifyTokenDetailed` and helpers) -/

/-- The fields of `StreamPlaybackTokenSchema` after JSON decoding. -/
structure TokenClaims where
  sub : String
  tid : String
  cid : String
  sid : String
  exp : Int
  iat : Int
  v : Int
deriving DecidableEq, Repr

/-- The zod checks of `StreamPlaybackTokenSchema` applied to a decoded
payload object: non-empty strings, positive integer `exp`/`iat`, `v = 1`. -/
def schemaValid (t : TokenClaims) : Bool :=
  !t.sub.isEmpty && !t.tid.isEmpty && !t.cid.isEmpty && !t.sid.isEmpty
    && t.exp > 0 && t.iat > 0 && t.v == 1

/-- External primitives used by `verifyTokenDetailed` that come from outside
the repository: `hmacSha256Base64url p` is
`createHmac("sha256", secret).update(p).digest("base64url")` with the
configured secret applied, and `decodeJsonPayload p` is
`JSON.parse(Buffer.from(p, "base64url").toString("utf8"))` restricted to the
token field shape — `none` when parsing throws or the shape does not match. -/
structure CryptoEnv where
  hmacSha256Base64url : String → String
  decodeJsonPayload : String → Option TokenClaims

/-- UTF-8 encoding of one character (the bytes `Buffer.from(s, "utf8")`
contributes for it), as natural numbers. -/
def utf8EncodeChar (c : Char) : List Nat :=
  let n := c.toNat
  if n < 128 then [n]
  else if n < 2048 then [192 + n / 64, 128 + n % 64]
  else if n < 65536 then [224 + n / 4096, 128 + (n / 64) % 64, 128 + n % 64]
  else [240 + n / 262144, 128 + (n / 4096) % 64, 128 + (n / 64) % 64, 128 + n % 64]

/-- The byte content of `Buffer.from(s, "utf8")`. -/
def utf8Bytes (s : String) : List Nat :=
  s.data.foldr (fun c acc => utf8EncodeChar c ++ acc) []

/-- Split a character list at every occurrence of `sep`, keeping empty
pieces (the semantics of JavaScript `String.prototype.split` with a
one-character separator). -/
def splitChar (sep : Char) : List Char → List (List Char)
  | [] => [[]]
  | c :: rest =>
    let r := splitChar sep rest
    if c = sep then [] :: r
    else
      match r with
      | [] => [[c]]
      | h :: t => (c :: h) :: t

/-- JavaScript `token.split(".")`. -/
def jsSplitDot (s : String) : List String :=
  (splitChar '.' s.data).map String.mk

/-- Failure reasons of `verifyTokenDetailed`. -/
inductive TokenFailReason
  | format_invalid
  | signature_invalid
  | payload_invalid
  | token_expired
deriving DecidableEq, Repr

/-- Result of `verifyTokenDetailed`. -/
inductive VerifyResult
  | ok (payload : TokenClaims)
  | fail (reason : TokenFailReason)
deriving DecidableEq, Repr

/-- `verifyTokenDetailed` from `app.ts`. The destructured first two
components of `token.split(".")` are empty when absent (JavaScript
`undefined` and `""` are both falsy); `Date.now()` is `nowMs`, and
`Math.floor(Date.now() / 1000)` is floor division. -/
def verifyTokenDetailed (env : CryptoEnv) (token : String) (nowMs : Int) : VerifyResult :=
  let parts := jsSplitDot token
  let payloadBase64 := (parts.get? 0).getD ""
  let signatureBase64 := (parts.get? 1).getD ""
  if payloadBase64.isEmpty || signatureBase64.isEmpty then .fail .format_invalid
  else
    let expectedSignature := env.hmacSha256Base64url payloadBase64
    let expectedBytes := utf8Bytes expectedSignature
    let providedBytes := utf8Bytes signatureBase64
    if expectedBytes.length ≠ providedBytes.length then .fail .signature_invalid
    else if expectedBytes ≠ providedBytes then .fail .signature_invalid
    else
      match env.decodeJsonPayload payloadBase64 with
      | none => .fail .payload_invalid
      | some decoded =>
        if schemaValid decoded = false then .fail .payload_invalid
        else if decoded.exp ≤ nowMs.fdiv 1000 then .fail .token_expired
        else .ok decoded

/-! ## HTTP-surface operations -/

/-- `ApiDomainError` as observed on the wire: HTTP status and `code`
(`message`/`details` are documentation-only strings the claims never
constrain). -/
structure ApiErr where
  statusCode : Nat
  apiCode : String
deriving DecidableEq, Repr

/-- `parseAndValidatePlaybackToken` from `app.ts`: the missing-token guard
(`!args.token`, so an absent or empty query value), the `reasonMap`
translation of `verifyTokenDetailed` failures, and the scope check. -/
def parseAndValidatePlaybackToken (env : CryptoEnv) (token : Option String)
    (tenantId cameraId : String) (nowMs : Int) : Except ApiErr TokenClaims :=
  match token with
  | none => .error ⟨401, "PLAYBACK_TOKEN_MISSING"⟩
  | some tok =>
    if tok.isEmpty then .error ⟨401, "PLAYBACK_TOKEN_MISSING"⟩
    else
      match verifyTokenDetailed env tok nowMs with
      | .fail .format_invalid => .error ⟨401, "PLAYBACK_TOKEN_FORMAT_INVALID"⟩
      | .fail .signature_invalid => .error ⟨401, "PLAYBACK_TOKEN_SIGNATURE_INVALID"⟩
      | .fail .payload_invalid => .error ⟨401, "PLAYBACK_TOKEN_PAYLOAD_INVALID"⟩
      | .fail .token_expired => .error ⟨401, "PLAYBACK_TOKEN_EXPIRED"⟩
      | .ok parsed =>
        if parsed.cid ≠ cameraId ∨ parsed.tid ≠ tenantId then
          .error ⟨403, "PLAYBACK_TOKEN_SCOPE_MISMATCH"⟩
        else .ok parsed

/-- `assertStreamReady` from `app.ts`. -/
def assertStreamReady (entry : Option StreamEntry) : Except ApiErr Unit :=
  match entry with
  | none => .error ⟨404, "PLAYBACK_STREAM_NOT_FOUND"⟩
  | some e =>
    if e.status = .provisioning then .error ⟨409, "PLAYBACK_STREAM_NOT_READY"⟩
    else if e.status = .stopped then .error ⟨410, "PLAYBACK_STREAM_STOPPED"⟩
    else .ok ()

/-- `upsertActiveSession` from `app.ts`: reject terminal sessions with
`PLAYBACK_SESSION_CLOSED`, otherwise write the session back as `active`. -/
def upsertActiveSession (sessions : Store StreamSessionEntry)
    (tenantId cameraId sid sub : String) (exp iat : Int) (nowMs : Int) :
    Except ApiErr (Store StreamSessionEntry) :=
  let sessionKey := streamSessionKey tenantId cameraId sid
  let existingSession := sessions.get sessionKey
  match existingSession with
  | some s =>
    if s.status = .ended ∨ s.status = .expired then
      .error ⟨401, "PLAYBACK_SESSION_CLOSED"⟩
    else
      .ok (sessions.set sessionKey
        { tenantId := tenantId, cameraId := cameraId, sid := sid, sub := sub
          status := .active
          issuedAt := s.issuedAt
          activatedAt := some (s.activatedAt.getD nowMs)
          endedAt := none
          expiresAt := exp * 1000
          lastSeenAt := nowMs
          endReason := none })
  | none =>
    .ok (sessions.set sessionKey
      { tenantId := tenantId, cameraId := cameraId, sid := sid, sub := sub
        status := .active
        issuedAt := iat * 1000
        activatedAt := some nowMs
        endedAt := none
        expiresAt := exp * 1000
        lastSeenAt := nowMs
        endReason := none })

/-- The transform `sweepSessions` applies to one session entry, with the
per-pass count deltas `(expired, ended)`. -/
def sweepSessionStep (idleTtl nowMs : Int) (s : StreamSessionEntry) :
    StreamSessionEntry × Nat × Nat :=
  if (s.status = .issued ∨ s.status = .active) ∧ s.expiresAt ≤ nowMs then
    ({ s with status := .expired, endedAt := some nowMs, endReason := some "token_expired" }, 1, 0)
  else if s.status = .active ∧ nowMs - s.lastSeenAt > idleTtl then
    ({ s with status := .ended, endedAt := some nowMs, endReason := some "idle_timeout" }, 0, 1)
  else (s, 0, 0)

/-- `sweepSessions` from `app.ts`: one pass over the session map (a `Map.set`
during iteration replaces the value at the visited key in place), counting
the sessions transitioned in this pass. -/
def sweepSessions (idleTtl nowMs : Int) (sessions : Store StreamSessionEntry) :
    Store StreamSessionEntry × Nat × Nat :=
  sessions.foldl
    (fun acc kv =>
      let r := sweepSessionStep idleTtl nowMs kv.2
      (acc.1 ++ [(kv.1, r.1)], acc.2.1 + r.2.1, acc.2.2 + r.2.2))
    ([], 0, 0)

/-- `POST /deprovision` from `app.ts`: mark the entry stopped (when present)
and end every non-terminal session of that `(tenantId, cameraId)`; returns
the new state and the `removed` flag. -/
def deprovision (tenantId cameraId : String) (nowMs : Int) (st : GatewayState) :
    GatewayState × Bool :=
  let key := streamKey tenantId cameraId
  match st.streams.get key with
  | none => (st, false)
  | some existing =>
    let streams' := st.streams.set key
      { existing with
        status := .stopped
        health := buildHealth .offline (some "deprovisioned") nowMs
        updatedAt := nowMs }
    let sessions' := Store.mapValues
      (fun s =>
        if s.tenantId = tenantId ∧ s.cameraId = cameraId
            ∧ (s.status = .issued ∨ s.status = .active) then
          { s with status := .ended, endedAt := some nowMs, endReason := some "deprovisioned" }
        else s)
      st.sessions
    ({ st with streams := streams', sessions := sessions' }, true)

/-- A parsed `POST /provision` body (after `ProvisionSchema` defaults). -/
structure ProvisionBody where
  tenantId : String
  cameraId : String
  rtspUrl : String
  transport : Transport
  codecHint : CodecHint
  targetProfiles : List String
deriving DecidableEq, Repr

/-- The response data of `POST /provision` that the claims constrain. -/
structure ProvisionResult where
  entry : StreamEntry
  playbackPath : String
  reprovisioned : Bool
deriving DecidableEq, Repr

/-- The idempotency comparison of the `/provision` handler. For
`targetProfiles` the code compares `JSON.stringify` images, and
`JSON.stringify` is injective on arrays of strings, so this is list
equality. -/
def provisionMatches (existing : StreamEntry) (rtspUrl : String) (source : StreamSource) : Prop :=
  existing.rtspUrl = rtspUrl
    ∧ existing.source.transport = source.transport
    ∧ existing.source.codecHint = source.codecHint
    ∧ existing.source.targetProfiles = source.targetProfiles

instance (existing : StreamEntry) (rtspUrl : String) (source : StreamSource) :
    Decidable (provisionMatches existing rtspUrl source) := by
  unfold provisionMatches; infer_instance

/-- `POST /provision` from `app.ts`: the idempotent early return, else write
a `provisioning` entry, produce the assets, then write the `ready` entry
(the returned state is after both writes). -/
def provision (body : ProvisionBody) (nowMs : Int) (st : GatewayState) :
    GatewayState × ProvisionResult :=
  let key := streamKey body.tenantId body.cameraId
  let source : StreamSource :=
    { transport := body.transport, codecHint := body.codecHint
      targetProfiles := body.targetProfiles }
  let existing := st.streams.get key
  let playbackPath := "/playback/" ++ body.tenantId ++ "/" ++ body.cameraId ++ "/index.m3u8"
  match existing with
  | some e =>
    if provisionMatches e body.rtspUrl source then
      (st, { entry := e, playbackPath := playbackPath, reprovisioned := false })
    else
      let version := e.version + 1
      let provisioningEntry : StreamEntry :=
        { tenantId := body.tenantId, cameraId := body.cameraId, rtspUrl := body.rtspUrl
          source := source, version := version, status := .provisioning
          health := buildHealth .degraded (some "provisioning") nowMs, updatedAt := nowMs }
      let st1 := { st with streams := st.streams.set key provisioningEntry }
      let ready : StreamEntry :=
        { tenantId := body.tenantId, cameraId := body.cameraId, rtspUrl := body.rtspUrl
          source := source, version := version, status := .ready
          health := buildHealth .online none nowMs, updatedAt := nowMs }
      ({ st1 with streams := st1.streams.set key ready },
        { entry := ready, playbackPath := playbackPath, reprovisioned := true })
  | none =>
    let provisioningEntry : StreamEntry :=
      { tenantId := body.tenantId, cameraId := body.cameraId, rtspUrl := body.rtspUrl
        source := source, version := 1, status := .provisioning
        health := buildHealth .degraded (some "provisioning") nowMs, updatedAt := nowMs }
    let st1 := { st with streams := st.streams.set key provisioningEntry }
    let ready : StreamEntry :=
      { tenantId := body.tenantId, cameraId := body.cameraId, rtspUrl := body.rtspUrl
        source := source, version := 1, status := .ready
        health := buildHealth .online none nowMs, updatedAt := nowMs }
    ({ st1 with streams := st1.streams.set key ready },
      { entry := ready, playbackPath := playbackPath, reprovisioned := true })

/-- `runStreamProbe` from `app.ts`. `roll` is `Math.random()` scaled to
percent (`roll < 7` ≈ `Math.random() < 0.07`, `roll < 22` ≈ `< 0.22`). -/
def runStreamProbe (entry : StreamEntry) (roll : Nat) (nowMs : Int) : StreamEntry :=
  if entry.status = .stopped then
    { entry with health := buildHealth .offline (some "deprovisioned") nowMs, updatedAt := nowMs }
  else if entry.status = .provisioning then
    { entry with status := .ready, health := buildHealth .online none nowMs, updatedAt := nowMs }
  else if roll < 7 then
    { entry with health := buildHealth .offline none nowMs, updatedAt := nowMs }
  else if roll < 22 then
    { entry with health := buildHealth .degraded none nowMs, updatedAt := nowMs }
  else
    { entry with health := buildHealth .online none nowMs, updatedAt := nowMs }

/-- One tick of the probe loop in `buildApp`: probe every stream entry. -/
def probeTick (roll : Nat) (nowMs : Int) (streams : Store StreamEntry) : Store StreamEntry :=
  Store.mapValues (fun e => runStreamProbe e roll nowMs) streams

/-! ## Playback asset reads with retry (`readWithRetry`) -/

/-- One invocation of the `reader` callback: it either resolves to the asset
content or rejects with a filesystem error carrying an `errno` code. -/
inductive ReadOutcome
  | ok (content : String)
  | fsError (code : String)
deriving DecidableEq, Repr

/-- The retryability test in `readWithRetry`. -/
def retryableCode (code : String) : Bool :=
  code == "ENOENT" || code == "EAGAIN" || code == "EBUSY"

/-- Observable outcome of `readWithRetry`: the final result (content or the
propagated error code), the final value of `attempt` (which is also the
number of times the retry counter was incremented, once per retry), and the
backoff sleeps performed, in order. -/
instance {ε α : Type} [DecidableEq ε] [DecidableEq α] : DecidableEq (Except ε α) := fun a b =>
  match a, b with
  | .ok a, .ok b => if h : a = b then .isTrue (by rw [h]) else .isFalse (by simp [h])
  | .error a, .error b => if h : a = b then .isTrue (by rw [h]) else .isFalse (by simp [h])
  | .ok _, .error _ => .isFalse (by simp)
  | .error _, .ok _ => .isFalse (by simp)

structure ReadAttempts where
  result : Except String String
  retries : Nat
  waits : List Nat
deriving DecidableEq, Repr

/-- The `while (true)` loop of `readWithRetry`; `outcomes i` is what the
`reader` does on its `i`-th invocation (0-based). `fuel` bounds the
recursion: the loop retries only while `attempt < maxRetries`, so starting
from `fuel = maxRetries - attempt` the `fuel = 0` fallback is unreachable. -/
def readWithRetryGo (maxRetries baseMs maxMs : Nat) (outcomes : Nat → ReadOutcome) :
    Nat → Nat → List Nat → ReadAttempts
  | fuel, attempt, waits =>
    match outcomes attempt with
    | .ok v => { result := .ok v, retries := attempt, waits := waits }
    | .fsError code =>
      if retryableCode code = false ∨ maxRetries ≤ attempt then
        { result := .error code, retries := attempt, waits := waits }
      else
        match fuel with
        | 0 => { result := .error code, retries := attempt, waits := waits }
        | fuel' + 1 =>
          readWithRetryGo maxRetries baseMs maxMs outcomes fuel' (attempt + 1)
            (waits ++ [min (baseMs * 2 ^ attempt) maxMs])

/-- `readWithRetry` from `app.ts` (with `attempt` starting at 0): after a
retryable failure with `attempt < maxRetries`, increment `attempt` and the
retry counter, sleep `min(base * 2 ^ (attempt - 1), max)` and call the
reader again. -/
def readWithRetry (cfg : GatewayConfig) (outcomes : Nat → ReadOutcome) : ReadAttempts :=
  readWithRetryGo cfg.playbackReadRetries cfg.playbackReadRetryBaseMs
    cfg.playbackReadRetryMaxMs outcomes cfg.playbackReadRetries 0 []

/-! ## The playback handlers -/

/-- The two playback assets. -/
inductive AssetKind
  | manifest
  | segment
deriving DecidableEq, Repr

/-- The `asset` metric label value. -/
def assetLabel : AssetKind → String
  | .manifest => "manifest"
  | .segment => "segment"

/-- `metricKey` from `app.ts` applied to the labels of
`playbackReadRetryCounters` (label names sorted: `asset`, `camera_id`,
`tenant_id`). -/
def retryMetricKey (tenantId cameraId : String) (asset : AssetKind) : String :=
  "asset=" ++ assetLabel asset ++ "|camera_id=" ++ cameraId ++ "|tenant_id=" ++ tenantId

/-- `incCounter` applied `n` times to the same key (the retry loop increments
the counter once per retry). -/
def bumpCounter (m : Store Nat) (k : String) (n : Nat) : Store Nat :=
  if n = 0 then m else m.set k ((m.get k).getD 0 + n)

/-- The two `GET /playback/...` handlers from `app.ts` (they differ only in
the asset read and the error code of an exhausted read): token
parse/validation, stream readiness, session upsert, asset read with retry,
with the catch-all mapping a failed read to the 404 asset error. The served
content itself (manifest URL rewriting, segment bytes) is returned opaquely.
Returns the state after the request together with the wire outcome. -/
def playbackRequest (env : CryptoEnv) (cfg : GatewayConfig) (asset : AssetKind)
    (st : GatewayState) (tenantId cameraId : String) (token : Option String)
    (nowMs : Int) (outcomes : Nat → ReadOutcome) :
    GatewayState × Except ApiErr String :=
  match parseAndValidatePlaybackToken env token tenantId cameraId nowMs with
  | .error e => (st, .error e)
  | .ok parsed =>
    let key := streamKey tenantId cameraId
    let entry := st.streams.get key
    match assertStreamReady entry with
    | .error e => (st, .error e)
    | .ok _ =>
      match upsertActiveSession st.sessions tenantId cameraId parsed.sid parsed.sub
          parsed.exp parsed.iat nowMs with
      | .error e => (st, .error e)
      | .ok sessions1 =>
        let st1 := { st with sessions := sessions1 }
        let r := readWithRetry cfg outcomes
        let counters2 := bumpCounter st1.readRetryCounters (retryMetricKey tenantId cameraId asset) r.retries
        let st2 := { st1 with readRetryCounters := counters2 }
        match r.result with
        | .ok content => (st2, .ok content)
        | .error _ =>
          (st2, .error ⟨404,
            if asset = .manifest then "PLAYBACK_MANIFEST_NOT_FOUND"
            else "PLAYBACK_SEGMENT_NOT_FOUND"⟩)

/-! ## Concrete fixtures used by the witness and counterexample theorems -/

/-- A concrete stand-in for the HMAC digest function: any function
`String → String` is admissible for the universally quantified theorems; for
closed evaluations we fix one mapping the payload `"pl"` to `"sig"`. -/
def wHmac : String → String := fun p => if p = "pl" then "sig" else "SIG"

/-- Concrete token claims for the stream `("t", "c")`, session `"s"`. -/
def wClaims : TokenClaims :=
  { sub := "user", tid := "t", cid := "c", sid := "s", exp := 100, iat := 1, v := 1 }

/-- A concrete payload decoder recognising only the payload `"pl"`. -/
def wDecode : String → Option TokenClaims := fun p => if p = "pl" then some wClaims else none

/-- The concrete crypto environment built from `wHmac` and `wDecode`; under
it the token `"pl.sig"` verifies to `wClaims`. -/
def wEnv : CryptoEnv := ⟨wHmac, wDecode⟩

/-- A concrete `ready` entry for the stream `("t", "c")`. -/
def wEntryReady : StreamEntry :=
  { tenantId := "t", cameraId := "c", rtspUrl := "rtsp://x"
    source := { transport := .auto, codecHint := .unknown, targetProfiles := ["main"] }
    version := 1, status := .ready, health := ⟨.online, none, 0⟩, updatedAt := 0 }

/-- A concrete gateway config (idle TTL 60 s, one read retry, base 25 ms,
max 250 ms). -/
def wCfg : GatewayConfig := ⟨60000, 1, 25, 250⟩

/-- A concrete terminal (`ended`) session for `("t", "c", "s")`. -/
def wEndedSession : StreamSessionEntry :=
  { tenantId := "t", cameraId := "c", sid := "s", sub := "user", status := .ended
    issuedAt := 1000, activatedAt := some 2000, endedAt := some 3000
    expiresAt := 100000, lastSeenAt := 2000, endReason := some "idle_timeout" }

/-! ## Helper lemmas -/

theorem splitChar_ne_nil (sep : Char) (l : List Char) : splitChar sep l ≠ [] := by
  cases l with
  | nil => simp [splitChar]
  | cons c rest =>
    simp only [splitChar]
    by_cases h : c = sep
    · simp [h]
    · simp only [if_neg h]
      cases splitChar sep rest <;> simp

theorem splitChar_no_sep {sep : Char} {l : List Char} (h : sep ∉ l) : splitChar sep l = [l] := by
  induction l with
  | nil => rfl
  | cons c rest ih =>
    have hc : ¬ (c = sep) := fun hh => h (hh ▸ List.mem_cons_self c rest)
    have hr : sep ∉ rest := fun hh => h (List.mem_cons_of_mem c hh)
    simp only [splitChar, if_neg hc, ih hr]

theorem splitChar_append {sep : Char} {l : List Char} (rest : List Char) (h : sep ∉ l) :
    splitChar sep (l ++ sep :: rest) = l :: splitChar sep rest := by
  induction l with
  | nil => simp [splitChar]
  | cons c l ih =>
    have hc : ¬ (c = sep) := fun hh => h (hh ▸ List.mem_cons_self c l)
    have hl : sep ∉ l := fun hh => h (List.mem_cons_of_mem c hh)
    simp only [List.cons_append, splitChar, if_neg hc]
    rw [show splitChar sep (l.append (sep :: rest)) = l :: splitChar sep rest from ih hl]

theorem string_mk_data (s : String) : String.mk s.data = s := rfl

theorem data_append_dot (p rest : String) :
    (p ++ "." ++ rest).data = p.data ++ '.' :: rest.data := by
  simp [String.data_append]

theorem jsSplitDot_append {p : String} (rest : String) (hp : '.' ∉ p.data) :
    jsSplitDot (p ++ "." ++ rest) = p :: jsSplitDot rest := by
  simp only [jsSplitDot, data_append_dot, splitChar_append _ hp, List.map, string_mk_data]

theorem jsSplitDot_pair {p s : String} (hp : '.' ∉ p.data) (hs : '.' ∉ s.data) :
    jsSplitDot (p ++ "." ++ s) = [p, s] := by
  rw [jsSplitDot_append _ hp]
  simp [jsSplitDot, splitChar_no_sep hs, string_mk_data]

theorem streamKey_tenant_inj {t1 t2 c : String} (h : streamKey t1 c = streamKey t2 c) :
    t1 = t2 := by
  have hd := congrArg String.data h
  simp only [streamKey, String.data_append] at hd
  have h2 : t1.data ++ [':'] = t2.data ++ [':'] := List.append_cancel_right hd
  have h3 : t1.data = t2.data := List.append_cancel_right h2
  exact congrArg String.mk h3

/-! ## C1: tenant isolation -/

theorem playback_streams_frame (env : CryptoEnv) (cfg : GatewayConfig) (asset : AssetKind)
    (st : GatewayState) (t c : String) (token : Option String) (nowMs : Int)
    (outs : Nat → ReadOutcome) :
    (playbackRequest env cfg asset st t c token nowMs outs).1.streams = st.streams := by
  cases hp : parseAndValidatePlaybackToken env token t c nowMs with
  | error e => simp [playbackRequest, hp]
  | ok parsed =>
    cases ha : assertStreamReady (st.streams.get (streamKey t c)) with
    | error e2 => simp [playbackRequest, hp, ha]
    | ok u =>
      cases hu : upsertActiveSession st.sessions t c parsed.sid parsed.sub
          parsed.exp parsed.iat nowMs with
      | error e3 => simp [playbackRequest, hp, ha, hu]
      | ok s1 =>
        cases hres : (readWithRetry cfg outs).result with
        | ok content => simp [playbackRequest, hp, ha, hu, hres]
        | error e4 => simp [playbackRequest, hp, ha, hu, hres]

theorem upsertActiveSession_frame (sessions : Store StreamSessionEntry)
    (t c sid sub : String) (exp iat nowMs : Int) (k : String)
    (sessions' : Store StreamSessionEntry)
    (hk : ¬ (k = streamSessionKey t c sid))
    (hup : upsertActiveSession sessions t c sid sub exp iat nowMs = .ok sessions') :
    sessions'.get k = sessions.get k := by
  unfold upsertActiveSession at hup
  cases hex : sessions.get (streamSessionKey t c sid) with
  | some s0 =>
    simp only [hex] at hup
    by_cases ht0 : s0.status = .ended ∨ s0.status = .expired
    · simp [ht0] at hup
    · rw [if_neg ht0] at hup
      cases hup
      rw [Store.get_set]
      simp [hk]
  | none =>
    simp only [hex] at hup
    cases hup
    rw [Store.get_set]
    simp [hk]

theorem playback_sessions_frame (env : CryptoEnv) (cfg : GatewayConfig) (asset : AssetKind)
    (st : GatewayState) (t c : String) (token : Option String) (nowMs : Int)
    (outs : Nat → ReadOutcome) (k : String)
    (hk : ∀ sid, ¬ (k = streamSessionKey t c sid)) :
    (playbackRequest env cfg asset st t c token nowMs outs).1.sessions.get k
      = st.sessions.get k := by
  cases hp : parseAndValidatePlaybackToken env token t c nowMs with
  | error e => simp [playbackRequest, hp]
  | ok parsed =>
    cases ha : assertStreamReady (st.streams.get (streamKey t c)) with
    | error e2 => simp [playbackRequest, hp, ha]
    | ok u =>
      cases hu : upsertActiveSession st.sessions t c parsed.sid parsed.sub
          parsed.exp parsed.iat nowMs with
      | error e3 => simp [playbackRequest, hp, ha, hu]
      | ok s1 =>
        have hframe := upsertActiveSession_frame st.sessions t c parsed.sid parsed.sub
          parsed.exp parsed.iat nowMs k s1 (hk parsed.sid) hu
        cases hres : (readWithRetry cfg outs).result with
        | ok content => simp [playbackRequest, hp, ha, hu, hres, hframe]
        | error e4 => simp [playbackRequest, hp, ha, hu, hres, hframe]

/-- For tenants containing no `':'`, the composite session key determines
the tenant. (With `':'` inside identifiers the key is ambiguous — see
`tenant_isolation_counterexample`.) -/
theorem streamSessionKey_tenant_inj {t1 t2 : String}
    (h1 : ':' ∉ t1.data) (h2 : ':' ∉ t2.data) {c1 c2 s1 s2 : String}
    (h : streamSessionKey t1 c1 s1 = streamSessionKey t2 c2 s2) : t1 = t2 := by
  have e1 : (streamSessionKey t1 c1 s1).data
      = t1.data ++ ':' :: (c1.data ++ ':' :: s1.data) := by
    simp [streamSessionKey, String.data_append]
  have e2 : (streamSessionKey t2 c2 s2).data
      = t2.data ++ ':' :: (c2.data ++ ':' :: s2.data) := by
    simp [streamSessionKey, String.data_append]
  have hd := congrArg String.data h
  rw [e1, e2] at hd
  have hsplit := congrArg (splitChar ':') hd
  rw [splitChar_append _ h1, splitChar_append _ h2] at hsplit
  injection hsplit with hh _
  exact congrArg String.mk hh

/-- A crypto environment issuing the token `"pz.sg"` for the stream
`("a", "b")` with the `':'`-containing session id `"b:z"`. -/
def wEnvX : CryptoEnv :=
  { hmacSha256Base64url := fun p => if p = "pz" then "sg" else "SG"
    decodeJsonPayload := fun p =>
      if p = "pz" then
        some { sub := "user", tid := "a", cid := "b", sid := "b:z", exp := 100, iat := 1, v := 1 }
      else none }

/-- The `active` session of tenant `"a:b"`, camera `"b"`, sid `"z"`; its map
key `"a:b:b:z"` collides with `streamSessionKey "a" "b" "b:z"`. -/
def wSessionT2 : StreamSessionEntry :=
  { tenantId := "a:b", cameraId := "b", sid := "z", sub := "user", status := .active
    issuedAt := 1000, activatedAt := some 2000, endedAt := none
    expiresAt := 100000, lastSeenAt := 2000, endReason := none }

/-- A state with a `ready` stream for `("a", "b")` and the session
`wSessionT2` of the distinct tenant `"a:b"` for the same camera `"b"`. -/
def wStCollision : GatewayState :=
  { streams := [(streamKey "a" "b", { wEntryReady with tenantId := "a", cameraId := "b" })]
    sessions := [(streamSessionKey "a:b" "b" "z", wSessionT2)]
    readRetryCounters := [] }

/-- The entry the colliding playback writes over `wSessionT2`. -/
def wOverwritten : StreamSessionEntry :=
  { tenantId := "a", cameraId := "b", sid := "b:z", sub := "user", status := .active
    issuedAt := 1000, activatedAt := some 2000, endedAt := none
    expiresAt := 100000, lastSeenAt := 0, endReason := none }

/-- Counterexample to C1 as stated: for the distinct tenants `T1 = "a"` and
`T2 = "a:b"` sharing the camera `C = "b"`, a playback request on `(T1, C)`
whose token carries the `':'`-containing sid `"b:z"` reaches
`upsertActiveSession` at the composite key
`streamSessionKey "a" "b" "b:z" = "a:b:b:z" = streamSessionKey "a:b" "b" "z"`
and overwrites the active session of `(T2, C)` — so an operation on
`(T1, C)` does change the sessions of `(T2, C)` when identifiers may
contain `':'`. -/
theorem tenant_isolation_counterexample :
    ("a" : String) ≠ "a:b"
    ∧ streamSessionKey "a" "b" "b:z" = streamSessionKey "a:b" "b" "z"
    ∧ wStCollision.sessions.get (streamSessionKey "a:b" "b" "z") = some wSessionT2
    ∧ (playbackRequest wEnvX wCfg .manifest wStCollision "a" "b" (some "pz.sg") 0
        (fun _ => .ok "M")).1.sessions.get (streamSessionKey "a:b" "b" "z")
        = some wOverwritten
    ∧ wOverwritten ≠ wSessionT2 := by
  refine ⟨by decide, by decide, by decide, by decide, by decide⟩

/-- C1 (amended): for distinct tenants `T1 ≠ T2` and any camera `C`, the
stream entry of `(T2, C)` — status, version and every other field — is
unchanged by deprovision, provision and playback on `(T1, C)`, for all
string identifiers including ones containing `':'` (the stream key
`T:C` is right-cancellative in the tenant). Sessions of tenant `T2` are
unchanged by deprovision and provision on `(T1, C)` for all identifiers;
a playback on `(T1, C)` leaves a session of `(T2, C)` unchanged provided
its map key differs from the upserted composite key — in particular, for
tenants containing no `':'` every canonically keyed `(T2, C)` session is
untouched. (With `':'` inside identifiers the composite session key can
collide across tenants and a playback on `(T1, C)` then overwrites a
session of `(T2, C)`; see `tenant_isolation_counterexample`.) -/
theorem tenant_isolation (T1 T2 C : String) (h : T1 ≠ T2)
    (st : GatewayState) (now : Int) :
    ((deprovision T1 C now st).1.streams.get (streamKey T2 C)
        = st.streams.get (streamKey T2 C))
    ∧ (∀ k s, st.sessions.get k = some s → s.tenantId = T2 →
        (deprovision T1 C now st).1.sessions.get k = some s)
    ∧ (∀ body : ProvisionBody, body.tenantId = T1 → body.cameraId = C →
        (provision body now st).1.streams.get (streamKey T2 C)
            = st.streams.get (streamKey T2 C)
        ∧ (provision body now st).1.sessions = st.sessions)
    ∧ (∀ (env : CryptoEnv) (cfg : GatewayConfig) (asset : AssetKind)
        (token : Option String) (outs : Nat → ReadOutcome),
        (playbackRequest env cfg asset st T1 C token now outs).1.streams.get
            (streamKey T2 C)
          = st.streams.get (streamKey T2 C))
    ∧ (∀ (env : CryptoEnv) (cfg : GatewayConfig) (asset : AssetKind)
        (token : Option String) (outs : Nat → ReadOutcome) (k : String)
        (s : StreamSessionEntry),
        st.sessions.get k = some s →
        (∀ sid, ¬ (k = streamSessionKey T1 C sid)) →
        (playbackRequest env cfg asset st T1 C token now outs).1.sessions.get k = some s)
    ∧ (':' ∉ T1.data → ':' ∉ T2.data →
        ∀ (env : CryptoEnv) (cfg : GatewayConfig) (asset : AssetKind)
          (token : Option String) (outs : Nat → ReadOutcome) (sid' : String)
          (s : StreamSessionEntry),
          st.sessions.get (streamSessionKey T2 C sid') = some s →
          (playbackRequest env cfg asset st T1 C token now outs).1.sessions.get
            (streamSessionKey T2 C sid') = some s) := by
  have hkey : ¬ (streamKey T2 C = streamKey T1 C) :=
    fun hk => h (streamKey_tenant_inj hk).symm
  refine ⟨?_, ?_, ?_, ?_, ?_, ?_⟩
  · unfold deprovision
    cases hget : st.streams.get (streamKey T1 C) with
    | none => simp [hget]
    | some e => simp [hget, Store.get_set, hkey]
  · intro k s hs hT2
    unfold deprovision
    cases hget : st.streams.get (streamKey T1 C) with
    | none => simpa [hget] using hs
    | some e =>
      have hcond : ¬ (s.tenantId = T1 ∧ s.cameraId = C
          ∧ (s.status = .issued ∨ s.status = .active)) :=
        fun hc => h (hT2 ▸ hc.1 : T2 = T1).symm
      simp [hget, Store.get_mapValues, hs, hcond]
  · intro body hbt hbc
    unfold provision
    rw [hbt, hbc]
    cases hget : st.streams.get (streamKey T1 C) with
    | none => simp [hget, Store.get_set, hkey]
    | some e =>
      by_cases hm : provisionMatches e body.rtspUrl
          ⟨body.transport, body.codecHint, body.targetProfiles⟩
      · simp [hget, hm]
      · simp [hget, hm, Store.get_set, hkey]
  · intro env cfg asset token outs
    rw [playback_streams_frame]
  · intro env cfg asset token outs k s hs hk
    rw [playback_sessions_frame env cfg asset st T1 C token now outs k hk]
    exact hs
  · intro hT1 hT2 env cfg asset token outs sid' s hs
    have hk : ∀ sid, ¬ (streamSessionKey T2 C sid' = streamSessionKey T1 C sid) :=
      fun sid heq => h (streamSessionKey_tenant_inj hT2 hT1 heq).symm
    rw [playback_sessions_frame env cfg asset st T1 C token now outs
      (streamSessionKey T2 C sid') hk]
    exact hs

/-- A concrete `active` session of tenant `t2` for the `tenant_isolation`
witness. -/
def wActiveSessionT2 : StreamSessionEntry :=
  { tenantId := "t2", cameraId := "c", sid := "s", sub := "user", status := .active
    issuedAt := 1000, activatedAt := some 2000, endedAt := none
    expiresAt := 100000, lastSeenAt := 2000, endReason := none }

/-- A concrete state holding a `ready` entry and an `active` session for
`("t2", "c")`. -/
def wIsolationSt : GatewayState :=
  { streams := [(streamKey "t2" "c", { wEntryReady with tenantId := "t2" })]
    sessions := [(streamSessionKey "t2" "c" "s", wActiveSessionT2)]
    readRetryCounters := [] }

/-- Witness for `tenant_isolation` at `T1 = "t1"`, `T2 = "t2"`, `C = "c"`
(colon-free tenants): deprovision on `(T1, C)` leaves the `(T2, C)` entry
unchanged, and a playback on `(T1, C)` leaves the `(T2, C)` session
unchanged. -/
theorem tenant_isolation_witness :
    (("t1" : String) ≠ "t2")
    ∧ (deprovision "t1" "c" 0 wIsolationSt).1.streams.get (streamKey "t2" "c")
        = wIsolationSt.streams.get (streamKey "t2" "c")
    ∧ (playbackRequest wEnv wCfg .manifest wIsolationSt "t1" "c" none 0
        (fun _ => .ok "M")).1.sessions.get (streamSessionKey "t2" "c" "s")
        = some wActiveSessionT2 :=
  ⟨by decide,
   (tenant_isolation "t1" "t2" "c" (by decide) wIsolationSt 0).1,
   (tenant_isolation "t1" "t2" "c" (by decide) wIsolationSt 0).2.2.2.2.2
     (by decide) (by decide) wEnv wCfg AssetKind.manifest none
     (fun _ => ReadOutcome.ok "M") "s" wActiveSessionT2 (by decide)⟩

/-! ## C2: token format check and verification order -/

theorem isEmpty_false_of_ne {p : String} (h : p ≠ "") : p.isEmpty = false := by
  rw [Bool.eq_false_iff]
  intro hT
  exact h ((String.isEmpty_iff p).mp hT)

/-- Counterexample to C2 as stated: the token `"a.b.c"` contains two `'.'`
characters, yet verification does not fail with the format error — the
destructuring of `token.split(".")` keeps only the first two components
(`"a"`, `"b"`, both non-empty), so the check proceeds to the signature
comparison and fails there instead (the recomputed digest `"SIG"` has a
different byte length than `"b"`). The wire error is
`PLAYBACK_TOKEN_SIGNATURE_INVALID`, not `PLAYBACK_TOKEN_FORMAT_INVALID`. -/
theorem token_format_counterexample :
    verifyTokenDetailed wEnv "a.b.c" 0 = .fail .signature_invalid
    ∧ verifyTokenDetailed wEnv "a.b.c" 0 ≠ .fail .format_invalid
    ∧ parseAndValidatePlaybackToken wEnv (some "a.b.c") "t" "c" 0
        = .error ⟨401, "PLAYBACK_TOKEN_SIGNATURE_INVALID"⟩ := by
  refine ⟨by decide, by decide, by decide⟩

/-- C2 (amended): a missing token fails with `PLAYBACK_TOKEN_MISSING`; a
token whose first or second `'.'`-separated component is empty or absent (no
dot at all, leading dot, trailing dot) fails with `format_invalid` for every
crypto environment; a token with two or more dots is NOT rejected for
format — its first two components alone determine the outcome, the later
ones are ignored; a two-part token with non-empty parts never fails the
format check; and the remaining checks run in the fixed order signature
(independent of the payload decoder), payload, expiry. -/
theorem token_format_order :
    (∀ env t c now, parseAndValidatePlaybackToken env none t c now
        = .error ⟨401, "PLAYBACK_TOKEN_MISSING"⟩)
    ∧ (∀ env token now, '.' ∉ token.data →
        verifyTokenDetailed env token now = .fail .format_invalid)
    ∧ (∀ env rest now,
        verifyTokenDetailed env ("." ++ rest) now = .fail .format_invalid)
    ∧ (∀ env p now, '.' ∉ p.data →
        verifyTokenDetailed env (p ++ ".") now = .fail .format_invalid)
    ∧ (∀ env p s r now, '.' ∉ p.data → '.' ∉ s.data →
        verifyTokenDetailed env (p ++ "." ++ s ++ "." ++ r) now
          = verifyTokenDetailed env (p ++ "." ++ s) now)
    ∧ (∀ env p s now, '.' ∉ p.data → '.' ∉ s.data → p ≠ "" → s ≠ "" →
        verifyTokenDetailed env (p ++ "." ++ s) now ≠ .fail .format_invalid)
    ∧ (∀ hmac dec p s now, '.' ∉ p.data → '.' ∉ s.data → p ≠ "" → s ≠ "" →
        utf8Bytes s ≠ utf8Bytes (hmac p) →
        verifyTokenDetailed ⟨hmac, dec⟩ (p ++ "." ++ s) now = .fail .signature_invalid)
    ∧ (∀ hmac dec p s now, '.' ∉ p.data → '.' ∉ s.data → p ≠ "" → s ≠ "" →
        utf8Bytes s = utf8Bytes (hmac p) → dec p = none →
        verifyTokenDetailed ⟨hmac, dec⟩ (p ++ "." ++ s) now = .fail .payload_invalid)
    ∧ (∀ hmac dec p s cl now, '.' ∉ p.data → '.' ∉ s.data → p ≠ "" → s ≠ "" →
        utf8Bytes s = utf8Bytes (hmac p) → dec p = some cl → schemaValid cl = true →
        cl.exp ≤ now.fdiv 1000 →
        verifyTokenDetailed ⟨hmac, dec⟩ (p ++ "." ++ s) now = .fail .token_expired) := by
  refine ⟨fun env t c now => rfl, ?_, ?_, ?_, ?_, ?_, ?_, ?_, ?_⟩
  · intro env token now hdot
    have hsplit : jsSplitDot token = [token] := by
      simp [jsSplitDot, splitChar_no_sep hdot, string_mk_data]
    have hemp : ("" : String).isEmpty = true := rfl
    simp [verifyTokenDetailed, hsplit, hemp]
  · intro env rest now
    have hdata : ("." ++ rest).data = '.' :: rest.data := by simp [String.data_append]
    have hsplit : jsSplitDot ("." ++ rest) = "" :: jsSplitDot rest := by
      simp [jsSplitDot, hdata, splitChar]
    have hemp : ("" : String).isEmpty = true := rfl
    simp [verifyTokenDetailed, hsplit, hemp]
  · intro env p now hp
    have hdata : (p ++ ".").data = p.data ++ '.' :: [] := String.data_append p "."
    have hsplit : jsSplitDot (p ++ ".") = [p, ""] := by
      simp only [jsSplitDot, hdata, splitChar_append _ hp]
      simp [splitChar, string_mk_data]
    have hemp : ("" : String).isEmpty = true := rfl
    simp [verifyTokenDetailed, hsplit, hemp]
  · intro env p s r now hp hs
    have h1 : p ++ "." ++ s ++ "." ++ r = p ++ "." ++ (s ++ "." ++ r) := by
      simp [String.append_assoc]
    have h2 : jsSplitDot (p ++ "." ++ (s ++ "." ++ r)) = p :: s :: jsSplitDot r := by
      rw [jsSplitDot_append _ hp, jsSplitDot_append _ hs]
    have h3 : jsSplitDot (p ++ "." ++ s) = [p, s] := jsSplitDot_pair hp hs
    rw [h1]
    simp only [verifyTokenDetailed, h2, h3]
    simp [List.get?]
  · intro env p s now hp hs hpne hsne
    have h3 : jsSplitDot (p ++ "." ++ s) = [p, s] := jsSplitDot_pair hp hs
    by_cases hlen : (utf8Bytes (env.hmacSha256Base64url p)).length = (utf8Bytes s).length
    · by_cases hbytes : utf8Bytes (env.hmacSha256Base64url p) = utf8Bytes s
      · cases hdec : env.decodeJsonPayload p with
        | none =>
          simp [verifyTokenDetailed, h3, isEmpty_false_of_ne hpne,
            isEmpty_false_of_ne hsne, hlen, hbytes, hdec]
        | some cl =>
          cases hschema : schemaValid cl with
          | false =>
            simp [verifyTokenDetailed, h3, isEmpty_false_of_ne hpne,
              isEmpty_false_of_ne hsne, hlen, hbytes, hdec, hschema]
          | true =>
            by_cases hexp : cl.exp ≤ now.fdiv 1000
            · simp [verifyTokenDetailed, h3, isEmpty_false_of_ne hpne,
                isEmpty_false_of_ne hsne, hlen, hbytes, hdec, hschema, hexp]
            · simp [verifyTokenDetailed, h3, isEmpty_false_of_ne hpne,
                isEmpty_false_of_ne hsne, hlen, hbytes, hdec, hschema, hexp]
      · simp [verifyTokenDetailed, h3, isEmpty_false_of_ne hpne,
          isEmpty_false_of_ne hsne, hlen, hbytes]
    · simp [verifyTokenDetailed, h3, isEmpty_false_of_ne hpne,
        isEmpty_false_of_ne hsne, hlen]
  · intro hmac dec p s now hp hs hpne hsne hsig
    have h3 : jsSplitDot (p ++ "." ++ s) = [p, s] := jsSplitDot_pair hp hs
    simp only [verifyTokenDetailed, h3]
    simp only [List.get?, Option.getD, isEmpty_false_of_ne hpne,
      isEmpty_false_of_ne hsne, Bool.or_self, Bool.false_or, if_false]
    by_cases hlen : (utf8Bytes (hmac p)).length = (utf8Bytes s).length
    · have hne : utf8Bytes (hmac p) ≠ utf8Bytes s := fun hh => hsig hh.symm
      simp [hlen, hne]
    · simp [hlen]
  · intro hmac dec p s now hp hs hpne hsne hsig hdec
    have h3 : jsSplitDot (p ++ "." ++ s) = [p, s] := jsSplitDot_pair hp hs
    simp only [verifyTokenDetailed, h3]
    simp [List.get?, Option.getD, isEmpty_false_of_ne hpne,
      isEmpty_false_of_ne hsne, hsig.symm, hdec]
  · intro hmac dec p s cl now hp hs hpne hsne hsig hdec hschema hexp
    have h3 : jsSplitDot (p ++ "." ++ s) = [p, s] := jsSplitDot_pair hp hs
    simp only [verifyTokenDetailed, h3]
    simp [List.get?, Option.getD, isEmpty_false_of_ne hpne,
      isEmpty_false_of_ne hsne, hsig.symm, hdec, hschema, hexp]

/-- Witness for `token_format_order`: concrete instantiations of the no-dot,
leading-dot, extra-dot and signature-mismatch conjuncts. -/
theorem token_format_order_witness :
    verifyTokenDetailed wEnv "abc" 0 = .fail .format_invalid
    ∧ verifyTokenDetailed wEnv ("." ++ "xy") 0 = .fail .format_invalid
    ∧ verifyTokenDetailed wEnv ("a" ++ "." ++ "b" ++ "." ++ "c") 0
        = verifyTokenDetailed wEnv ("a" ++ "." ++ "b") 0
    ∧ verifyTokenDetailed ⟨wHmac, wDecode⟩ ("a" ++ "." ++ "b") 0
        = .fail .signature_invalid :=
  ⟨token_format_order.2.1 wEnv "abc" 0 (by decide),
   token_format_order.2.2.1 wEnv "xy" 0,
   token_format_order.2.2.2.2.1 wEnv "a" "b" "c" 0 (by decide) (by decide),
   token_format_order.2.2.2.2.2.2.1 wHmac wDecode "a" "b" 0 (by decide) (by decide)
     (by decide) (by decide) (by decide)⟩

/-! ## C9: signature verification -/

/-- C9: a provided signature whose UTF-8 bytes differ from the recomputed
HMAC digest — whether shorter/longer (length mismatch) or equal-length with
different content — always yields the single failure reason
`signature_invalid`, for every payload decoder (the payload is never
consulted), and `parseAndValidatePlaybackToken` maps that reason to
401 `PLAYBACK_TOKEN_SIGNATURE_INVALID`. The two mismatch shapes are thus
observationally identical on the wire; the code compares equal-length
buffers with `crypto.timingSafeEqual`, whose timing behaviour is outside
this functional model. -/
theorem signature_mismatch_uniform_error :
    (∀ hmac dec p s now, '.' ∉ p.data → '.' ∉ s.data → p ≠ "" → s ≠ "" →
        (utf8Bytes s).length ≠ (utf8Bytes (hmac p)).length →
        verifyTokenDetailed ⟨hmac, dec⟩ (p ++ "." ++ s) now = .fail .signature_invalid)
    ∧ (∀ hmac dec p s now, '.' ∉ p.data → '.' ∉ s.data → p ≠ "" → s ≠ "" →
        (utf8Bytes s).length = (utf8Bytes (hmac p)).length →
        utf8Bytes s ≠ utf8Bytes (hmac p) →
        verifyTokenDetailed ⟨hmac, dec⟩ (p ++ "." ++ s) now = .fail .signature_invalid)
    ∧ (∀ env tok t c now, tok ≠ "" →
        verifyTokenDetailed env tok now = .fail .signature_invalid →
        parseAndValidatePlaybackToken env (some tok) t c now
          = .error ⟨401, "PLAYBACK_TOKEN_SIGNATURE_INVALID"⟩) := by
  refine ⟨?_, ?_, ?_⟩
  · intro hmac dec p s now hp hs hpne hsne hlen
    have h3 : jsSplitDot (p ++ "." ++ s) = [p, s] := jsSplitDot_pair hp hs
    have hlen2 : ¬ ((utf8Bytes (hmac p)).length = (utf8Bytes s).length) :=
      fun hh => hlen hh.symm
    simp [verifyTokenDetailed, h3, isEmpty_false_of_ne hpne,
      isEmpty_false_of_ne hsne, hlen2]
  · intro hmac dec p s now hp hs hpne hsne hlen hbytes
    have h3 : jsSplitDot (p ++ "." ++ s) = [p, s] := jsSplitDot_pair hp hs
    have hbytes2 : ¬ (utf8Bytes (hmac p) = utf8Bytes s) := fun hh => hbytes hh.symm
    simp [verifyTokenDetailed, h3, isEmpty_false_of_ne hpne,
      isEmpty_false_of_ne hsne, hlen.symm, hbytes2]
  · intro env tok t c now htok hver
    simp [parseAndValidatePlaybackToken, isEmpty_false_of_ne htok, hver]

/-- Witness for `signature_mismatch_uniform_error`: under `wHmac` the digest
of `"a"` is `"SIG"`; the 1-byte signature `"b"` (length mismatch) and the
3-byte signature `"XYZ"` (content mismatch) fail with the same reason, and
the mapped wire error is checked for the token `"a.b"`. -/
theorem signature_mismatch_uniform_error_witness :
    verifyTokenDetailed ⟨wHmac, wDecode⟩ ("a" ++ "." ++ "b") 0 = .fail .signature_invalid
    ∧ verifyTokenDetailed ⟨wHmac, wDecode⟩ ("a" ++ "." ++ "XYZ") 0 = .fail .signature_invalid
    ∧ parseAndValidatePlaybackToken wEnv (some "a.b") "t" "c" 0
        = .error ⟨401, "PLAYBACK_TOKEN_SIGNATURE_INVALID"⟩ :=
  ⟨signature_mismatch_uniform_error.1 wHmac wDecode "a" "b" 0 (by decide) (by decide)
      (by decide) (by decide) (by decide),
   signature_mismatch_uniform_error.2.1 wHmac wDecode "a" "XYZ" 0 (by decide) (by decide)
      (by decide) (by decide) (by decide) (by decide),
   signature_mismatch_uniform_error.2.2 wEnv "a.b" "t" "c" 0 (by decide) (by decide)⟩

/-! ## C4: provision idempotence -/

/-- The stream source built from a provision body by the handler. -/
def bodySource (body : ProvisionBody) : StreamSource :=
  { transport := body.transport, codecHint := body.codecHint
    targetProfiles := body.targetProfiles }

theorem provision_matching (body : ProvisionBody) (nowMs : Int) (st : GatewayState)
    (e : StreamEntry)
    (hget : st.streams.get (streamKey body.tenantId body.cameraId) = some e)
    (hm : provisionMatches e body.rtspUrl (bodySource body)) :
    provision body nowMs st =
      (st, { entry := e
             playbackPath := "/playback/" ++ body.tenantId ++ "/" ++ body.cameraId ++ "/index.m3u8"
             reprovisioned := false }) := by
  unfold bodySource at hm
  unfold provision
  simp only [hget]
  rw [if_pos hm]

theorem provision_fresh (body : ProvisionBody) (nowMs : Int) (st : GatewayState)
    (h : st.streams.get (streamKey body.tenantId body.cameraId) = none) :
    (provision body nowMs st).2.reprovisioned = true
    ∧ (provision body nowMs st).2.entry.version = 1
    ∧ (provision body nowMs st).2.entry.status = .ready
    ∧ (provision body nowMs st).1.streams.get (streamKey body.tenantId body.cameraId)
        = some (provision body nowMs st).2.entry
    ∧ provisionMatches (provision body nowMs st).2.entry body.rtspUrl (bodySource body)
    ∧ (provision body nowMs st).1.sessions = st.sessions := by
  unfold provision
  simp [h, Store.get_set, provisionMatches, bodySource]

/-- `n` successive `POST /provision` calls with the same body, the `i`-th at
wall time `times i`; returns the final state and the list of responses. -/
def provisionIter (body : ProvisionBody) (times : Nat → Int) (st : GatewayState) :
    Nat → GatewayState × List ProvisionResult
  | 0 => (st, [])
  | n + 1 =>
    let p := provisionIter body times st n
    let q := provision body (times n) p.1
    (q.1, p.2 ++ [q.2])

/-- C4: starting with no entry for `(tenantId, cameraId)`, calling
`POST /provision` `n ≥ 1` times with an identical body gives `version = 1`
in every response, `reprovisioned = true` exactly on the first call, the
very entry stored by the first call in every response, and a state identical
to the state after the first call. -/
theorem provision_idempotent (body : ProvisionBody) (times : Nat → Int)
    (st : GatewayState)
    (h : st.streams.get (streamKey body.tenantId body.cameraId) = none)
    (n : Nat) (hn : 1 ≤ n) :
    (provisionIter body times st n).1 = (provisionIter body times st 1).1
    ∧ (provisionIter body times st n).2.length = n
    ∧ (∀ i r, (provisionIter body times st n).2.get? i = some r →
        r.entry.version = 1
        ∧ (r.reprovisioned = true ↔ i = 0)
        ∧ r.entry = (provision body (times 0) st).2.entry) := by
  induction n with
  | zero => omega
  | succ n ih =>
    rcases Nat.eq_or_lt_of_le hn with h1 | h1
    · have hn0 : n = 0 := by omega
      subst hn0
      obtain ⟨ha, hb, hc, hd, he, hf⟩ := provision_fresh body (times 0) st h
      refine ⟨rfl, rfl, ?_⟩
      intro i r hr
      cases i with
      | zero =>
        simp only [provisionIter, List.nil_append, List.get?] at hr
        cases hr
        exact ⟨hb, by simp [ha], rfl⟩
      | succ j =>
        simp [provisionIter, List.get?] at hr
    · have hn' : 1 ≤ n := by omega
      obtain ⟨ihst, ihlen, ihresp⟩ := ih hn'
      obtain ⟨ha, hb, hc, hd, he, hf⟩ := provision_fresh body (times 0) st h
      have hst1 : (provisionIter body times st 1).1 = (provision body (times 0) st).1 := rfl
      have hget : (provisionIter body times st n).1.streams.get
          (streamKey body.tenantId body.cameraId)
          = some (provision body (times 0) st).2.entry := by
        rw [ihst, hst1]; exact hd
      have hq := provision_matching body (times n) (provisionIter body times st n).1
        (provision body (times 0) st).2.entry hget he
      have hcat : (provisionIter body times st (n + 1)).2
          = (provisionIter body times st n).2
            ++ [(provision body (times n) (provisionIter body times st n).1).2] := rfl
      refine ⟨?_, ?_, ?_⟩
      · show (provision body (times n) (provisionIter body times st n).1).1
            = (provisionIter body times st 1).1
        rw [hq, ihst]
      · rw [hcat]; simp [ihlen]
      · intro i r hr
        rw [hcat] at hr
        by_cases hi : i < n
        · have hi' : i < (provisionIter body times st n).2.length := by omega
          rw [List.get?_append hi'] at hr
          exact ihresp i r hr
        · have hi2 : i = n := by
            by_contra hne
            have hlarge : ((provisionIter body times st n).2
                ++ [(provision body (times n) (provisionIter body times st n).1).2]).length
                  ≤ i := by
              simp [ihlen]; omega
            rw [List.get?_eq_none.mpr hlarge] at hr
            cases hr
          have hlast : ((provisionIter body times st n).2
              ++ [(provision body (times n) (provisionIter body times st n).1).2]).get? n
              = some (provision body (times n) (provisionIter body times st n).1).2 := by
            have h0 := List.get?_concat_length (provisionIter body times st n).2
              (provision body (times n) (provisionIter body times st n).1).2
            rwa [ihlen] at h0
          rw [hi2, hlast] at hr
          cases hr
          have hq2 : (provision body (times n) (provisionIter body times st n).1).2
              = { entry := (provision body (times 0) st).2.entry
                  playbackPath := "/playback/" ++ body.tenantId ++ "/" ++ body.cameraId
                    ++ "/index.m3u8"
                  reprovisioned := false } := congrArg Prod.snd hq
          rw [hq2]
          refine ⟨hb, ?_, rfl⟩
          simp only [Bool.false_eq_true, false_iff]
          omega

/-- A concrete provision body for the stream `("t", "c")`. -/
def wBody : ProvisionBody :=
  { tenantId := "t", cameraId := "c", rtspUrl := "rtsp://demo/c"
    transport := .auto, codecHint := .unknown, targetProfiles := ["main"] }

/-- Witness for `provision_idempotent`: three identical provisions from the
empty state; the second response is `version 1`, `reprovisioned = false`. -/
theorem provision_idempotent_witness :
    (⟨[], [], []⟩ : GatewayState).streams.get (streamKey wBody.tenantId wBody.cameraId) = none
    ∧ ((provisionIter wBody (fun _ => 0) ⟨[], [], []⟩ 3).1
        = (provisionIter wBody (fun _ => 0) ⟨[], [], []⟩ 1).1
      ∧ (provisionIter wBody (fun _ => 0) ⟨[], [], []⟩ 3).2.length = 3
      ∧ (∀ i r, (provisionIter wBody (fun _ => 0) ⟨[], [], []⟩ 3).2.get? i = some r →
          r.entry.version = 1
          ∧ (r.reprovisioned = true ↔ i = 0)
          ∧ r.entry = (provision wBody 0 ⟨[], [], []⟩).2.entry)) :=
  ⟨by decide,
   provision_idempotent wBody (fun _ => 0) ⟨[], [], []⟩ (by decide) 3 (by omega)⟩

/-! ## C5: version monotonicity -/

theorem runStreamProbe_version (e : StreamEntry) (roll : Nat) (nowMs : Int) :
    (runStreamProbe e roll nowMs).version = e.version := by
  unfold runStreamProbe
  split_ifs <;> rfl

/-- C5: a `POST /provision` against an existing entry whose `rtspUrl` or any
`source` field differs (a mere reordering of `targetProfiles` already
falsifies the idempotency comparison) stores exactly `version + 1` and
answers `reprovisioned = true`; and no operation ever decreases the version
of an entry — provision never lowers it, deprovision, the probe loop and
playback requests leave it unchanged. -/
theorem version_monotonic :
    (∀ (e : StreamEntry) rtsp (src : StreamSource),
        e.source.targetProfiles ≠ src.targetProfiles →
        ¬ provisionMatches e rtsp src)
    ∧ (∀ body nowMs st (e : StreamEntry),
        st.streams.get (streamKey body.tenantId body.cameraId) = some e →
        ¬ provisionMatches e body.rtspUrl (bodySource body) →
        (provision body nowMs st).2.reprovisioned = true
        ∧ (provision body nowMs st).2.entry.version = e.version + 1
        ∧ (provision body nowMs st).1.streams.get (streamKey body.tenantId body.cameraId)
            = some (provision body nowMs st).2.entry)
    ∧ (∀ body nowMs st k (e e' : StreamEntry), st.streams.get k = some e →
        (provision body nowMs st).1.streams.get k = some e' → e.version ≤ e'.version)
    ∧ (∀ t c nowMs st k (e e' : StreamEntry), st.streams.get k = some e →
        (deprovision t c nowMs st).1.streams.get k = some e' → e.version = e'.version)
    ∧ (∀ roll nowMs k (e e' : StreamEntry) (streams : Store StreamEntry),
        Store.get streams k = some e →
        Store.get (probeTick roll nowMs streams) k = some e' → e.version = e'.version)
    ∧ (∀ env cfg asset st t c tok nowMs outs,
        (playbackRequest env cfg asset st t c tok nowMs outs).1.streams = st.streams) := by
  refine ⟨?_, ?_, ?_, ?_, ?_, ?_⟩
  · intro e rtsp src hne hm
    exact hne hm.2.2.2
  · intro body nowMs st e hget hm
    unfold bodySource at hm
    unfold provision
    simp [hget, hm, Store.get_set]
  · intro body nowMs st k e e' hget hget'
    simp only [provision] at hget'
    by_cases hk : k = streamKey body.tenantId body.cameraId
    · subst hk
      simp only [hget] at hget'
      by_cases hm : provisionMatches e body.rtspUrl
          { transport := body.transport, codecHint := body.codecHint
            targetProfiles := body.targetProfiles }
      · rw [if_pos hm] at hget'
        simp only [hget] at hget'
        cases hget'
        exact le_refl _
      · rw [if_neg hm] at hget'
        simp only [Store.get_set, if_pos rfl] at hget'
        cases hget'
        exact Nat.le_succ _
    · cases hget0 : st.streams.get (streamKey body.tenantId body.cameraId) with
      | none =>
        simp only [hget0] at hget'
        simp only [Store.get_set, if_neg hk, hget] at hget'
        cases hget'
        exact le_refl _
      | some e0 =>
        simp only [hget0] at hget'
        by_cases hm : provisionMatches e0 body.rtspUrl
            { transport := body.transport, codecHint := body.codecHint
              targetProfiles := body.targetProfiles }
        · rw [if_pos hm] at hget'
          simp only [hget] at hget'
          cases hget'
          exact le_refl _
        · rw [if_neg hm] at hget'
          simp only [Store.get_set, if_neg hk, hget] at hget'
          cases hget'
          exact le_refl _
  · intro t c nowMs st k e e' hget hget'
    simp only [deprovision] at hget'
    cases hget0 : st.streams.get (streamKey t c) with
    | none =>
      simp only [hget0, hget] at hget'
      cases hget'
      rfl
    | some e0 =>
      simp only [hget0] at hget'
      by_cases hk : k = streamKey t c
      · subst hk
        simp only [Store.get_set, if_pos rfl] at hget'
        rw [hget0] at hget
        cases hget
        cases hget'
        rfl
      · simp only [Store.get_set, if_neg hk, hget] at hget'
        cases hget'
        rfl
  · intro roll nowMs k e e' streams hget hget'
    unfold probeTick at hget'
    rw [Store.get_mapValues, hget] at hget'
    simp only [Option.map_some'] at hget'
    cases hget'
    exact (runStreamProbe_version e roll nowMs).symm
  · intro env cfg asset st t c tok nowMs outs
    cases hp : parseAndValidatePlaybackToken env tok t c nowMs with
    | error e => simp [playbackRequest, hp]
    | ok parsed =>
      cases ha : assertStreamReady (st.streams.get (streamKey t c)) with
      | error e2 => simp [playbackRequest, hp, ha]
      | ok u =>
        cases hu : upsertActiveSession st.sessions t c parsed.sid parsed.sub
            parsed.exp parsed.iat nowMs with
        | error e3 => simp [playbackRequest, hp, ha, hu]
        | ok s1 =>
          cases hres : (readWithRetry cfg outs).result with
          | ok content => simp [playbackRequest, hp, ha, hu, hres]
          | error e4 => simp [playbackRequest, hp, ha, hu, hres]

/-- A stored entry whose `targetProfiles` are `["main", "sub"]`. -/
def wEntryTwoProfiles : StreamEntry :=
  { wEntryReady with source := { transport := .auto, codecHint := .unknown
                                 targetProfiles := ["main", "sub"] } }

/-- Witness for `version_monotonic`: reordering `targetProfiles` to
`["sub", "main"]` against a stored `["main", "sub"]` bumps version 1 → 2
with `reprovisioned = true`. -/
theorem version_monotonic_witness :
    ((⟨[(streamKey "t" "c", wEntryTwoProfiles)], [], []⟩ : GatewayState)).streams.get
        (streamKey "t" "c") = some wEntryTwoProfiles
    ∧ ¬ provisionMatches wEntryTwoProfiles "rtsp://x"
        (bodySource { wBody with rtspUrl := "rtsp://x", targetProfiles := ["sub", "main"] })
    ∧ (provision { wBody with rtspUrl := "rtsp://x", targetProfiles := ["sub", "main"] } 0
        ⟨[(streamKey "t" "c", wEntryTwoProfiles)], [], []⟩).2.reprovisioned = true
    ∧ (provision { wBody with rtspUrl := "rtsp://x", targetProfiles := ["sub", "main"] } 0
        ⟨[(streamKey "t" "c", wEntryTwoProfiles)], [], []⟩).2.entry.version
        = wEntryTwoProfiles.version + 1 :=
  ⟨by decide, by decide,
   ((version_monotonic.2.1 { wBody with rtspUrl := "rtsp://x", targetProfiles := ["sub", "main"] }
      0 ⟨[(streamKey "t" "c", wEntryTwoProfiles)], [], []⟩ wEntryTwoProfiles
      (by decide) (by decide))).1,
   ((version_monotonic.2.1 { wBody with rtspUrl := "rtsp://x", targetProfiles := ["sub", "main"] }
      0 ⟨[(streamKey "t" "c", wEntryTwoProfiles)], [], []⟩ wEntryTwoProfiles
      (by decide) (by decide))).2.1⟩

/-! ## C7: sweep determinism -/

theorem sweep_fold (idleTtl nowMs : Int) (l : Store StreamSessionEntry)
    (acc : Store StreamSessionEntry × Nat × Nat) :
    l.foldl (fun acc kv =>
        let r := sweepSessionStep idleTtl nowMs kv.2
        (acc.1 ++ [(kv.1, r.1)], acc.2.1 + r.2.1, acc.2.2 + r.2.2)) acc
      = (acc.1 ++ Store.mapValues (fun s => (sweepSessionStep idleTtl nowMs s).1) l,
         acc.2.1 + l.countP (fun kv => (sweepSessionStep idleTtl nowMs kv.2).2.1 == 1),
         acc.2.2 + l.countP (fun kv => (sweepSessionStep idleTtl nowMs kv.2).2.2 == 1)) := by
  induction l generalizing acc with
  | nil => simp [Store.mapValues]
  | cons kv rest ih =>
    simp only [List.foldl_cons, ih]
    have hcases : ((sweepSessionStep idleTtl nowMs kv.2).2.1 = 1
          ∧ (sweepSessionStep idleTtl nowMs kv.2).2.2 = 0)
        ∨ ((sweepSessionStep idleTtl nowMs kv.2).2.1 = 0
          ∧ (sweepSessionStep idleTtl nowMs kv.2).2.2 = 1)
        ∨ ((sweepSessionStep idleTtl nowMs kv.2).2.1 = 0
          ∧ (sweepSessionStep idleTtl nowMs kv.2).2.2 = 0) := by
      unfold sweepSessionStep
      split_ifs <;> simp
    rcases hcases with ⟨h1, h2⟩ | ⟨h1, h2⟩ | ⟨h1, h2⟩ <;>
      simp [Store.mapValues, List.countP_cons, h1, h2] <;>
      omega

theorem sweepSessionStep_expired_delta (idleTtl nowMs : Int) (s : StreamSessionEntry) :
    ((sweepSessionStep idleTtl nowMs s).2.1 == 1)
      = decide ((s.status = .issued ∨ s.status = .active) ∧ s.expiresAt ≤ nowMs) := by
  unfold sweepSessionStep
  split_ifs with h1 h2 <;> simp [h1]

theorem sweepSessionStep_ended_delta (idleTtl nowMs : Int) (s : StreamSessionEntry) :
    ((sweepSessionStep idleTtl nowMs s).2.2 == 1)
      = decide (s.status = .active ∧ nowMs < s.expiresAt
          ∧ nowMs - s.lastSeenAt > idleTtl) := by
  unfold sweepSessionStep
  split_ifs with h1 h2
  · have hne : ¬ (s.status = .active ∧ nowMs < s.expiresAt
        ∧ nowMs - s.lastSeenAt > idleTtl) := by
      rintro ⟨hs, hlt, _⟩
      have := h1.2
      omega
    simp [hne]
  · have hexp : nowMs < s.expiresAt := by
      by_contra hle
      exact h1 ⟨Or.inr h2.1, by omega⟩
    simp [h2.1, h2.2, hexp]
  · have hne : ¬ (s.status = .active ∧ nowMs < s.expiresAt
        ∧ nowMs - s.lastSeenAt > idleTtl) := by
      rintro ⟨hs, hlt, hidle⟩
      exact h2 ⟨hs, hidle⟩
    simp [hne]


/-- C7: one sweep pass at time `now` turns every `issued`/`active` session
with `expiresAt ≤ now` into `expired` with `endedAt = now` and
`endReason = "token_expired"`; turns every remaining `active` session (one
with `expiresAt > now`, expiry taking precedence) with
`now - lastSeenAt > idleTtl` into `ended` with `endReason = "idle_timeout"`;
leaves every other session exactly unchanged; and returns precisely the
counts of sessions transitioned to `expired` and to `ended` in this pass. -/
theorem sweep_deterministic (idleTtl nowMs : Int) (sessions : Store StreamSessionEntry) :
    (∀ k s, sessions.get k = some s →
      (((s.status = .issued ∨ s.status = .active) ∧ s.expiresAt ≤ nowMs) →
        (sweepSessions idleTtl nowMs sessions).1.get k
          = some { s with
              status := .expired
              endedAt := some nowMs
              endReason := some "token_expired" })
      ∧ ((s.status = .active ∧ nowMs < s.expiresAt ∧ nowMs - s.lastSeenAt > idleTtl) →
        (sweepSessions idleTtl nowMs sessions).1.get k
          = some { s with
              status := .ended
              endedAt := some nowMs
              endReason := some "idle_timeout" })
      ∧ (¬ ((s.status = .issued ∨ s.status = .active) ∧ s.expiresAt ≤ nowMs) →
         ¬ (s.status = .active ∧ nowMs - s.lastSeenAt > idleTtl) →
        (sweepSessions idleTtl nowMs sessions).1.get k = some s))
    ∧ (sweepSessions idleTtl nowMs sessions).2.1
        = sessions.countP (fun kv =>
            decide ((kv.2.status = .issued ∨ kv.2.status = .active)
              ∧ kv.2.expiresAt ≤ nowMs))
    ∧ (sweepSessions idleTtl nowMs sessions).2.2
        = sessions.countP (fun kv =>
            decide (kv.2.status = .active ∧ nowMs < kv.2.expiresAt
              ∧ nowMs - kv.2.lastSeenAt > idleTtl)) := by
  have hfold := sweep_fold idleTtl nowMs sessions ([], 0, 0)
  have hsweep : sweepSessions idleTtl nowMs sessions
      = (Store.mapValues (fun s => (sweepSessionStep idleTtl nowMs s).1) sessions,
         sessions.countP (fun kv => (sweepSessionStep idleTtl nowMs kv.2).2.1 == 1),
         sessions.countP (fun kv => (sweepSessionStep idleTtl nowMs kv.2).2.2 == 1)) := by
    unfold sweepSessions
    rw [hfold]
    simp
  have hp1 : (fun kv : String × StreamSessionEntry =>
        (sweepSessionStep idleTtl nowMs kv.2).2.1 == 1)
      = fun kv => decide ((kv.2.status = .issued ∨ kv.2.status = .active)
          ∧ kv.2.expiresAt ≤ nowMs) :=
    funext fun kv => sweepSessionStep_expired_delta idleTtl nowMs kv.2
  have hp2 : (fun kv : String × StreamSessionEntry =>
        (sweepSessionStep idleTtl nowMs kv.2).2.2 == 1)
      = fun kv => decide (kv.2.status = .active ∧ nowMs < kv.2.expiresAt
          ∧ nowMs - kv.2.lastSeenAt > idleTtl) :=
    funext fun kv => sweepSessionStep_ended_delta idleTtl nowMs kv.2
  refine ⟨?_, ?_, ?_⟩
  · intro k s hs
    have hget : (sweepSessions idleTtl nowMs sessions).1.get k
        = some (sweepSessionStep idleTtl nowMs s).1 := by
      rw [hsweep]
      simp [Store.get_mapValues, hs]
    refine ⟨?_, ?_, ?_⟩
    · intro hcond
      rw [hget]
      unfold sweepSessionStep
      rw [if_pos hcond]
    · intro hcond
      have hnot1 : ¬ ((s.status = .issued ∨ s.status = .active)
          ∧ s.expiresAt ≤ nowMs) := by
        rintro ⟨_, hle⟩
        have := hcond.2.1
        omega
      rw [hget]
      unfold sweepSessionStep
      rw [if_neg hnot1, if_pos ⟨hcond.1, hcond.2.2⟩]
    · intro h1 h2
      rw [hget]
      unfold sweepSessionStep
      rw [if_neg h1, if_neg h2]
  · rw [hsweep, hp1]
  · rw [hsweep, hp2]

/-- A concrete session that the sweep at `now = 100000` must expire. -/
def wExpiring : StreamSessionEntry :=
  { tenantId := "t", cameraId := "c", sid := "s1", sub := "user", status := .active
    issuedAt := 1000, activatedAt := some 2000, endedAt := none
    expiresAt := 50000, lastSeenAt := 99000, endReason := none }

/-- A concrete session list for the `sweep_deterministic` witness. -/
def wSweepList : Store StreamSessionEntry :=
  [(streamSessionKey "t" "c" "s1", wExpiring)]

/-- Witness for `sweep_deterministic` at `idleTtl = 60000`, `now = 100000`. -/
theorem sweep_deterministic_witness :
    (sweepSessions 60000 100000 wSweepList).2.1
        = wSweepList.countP (fun kv =>
            decide ((kv.2.status = .issued ∨ kv.2.status = .active)
              ∧ kv.2.expiresAt ≤ 100000))
    ∧ (sweepSessions 60000 100000 wSweepList).1.get (streamSessionKey "t" "c" "s1")
        = some { wExpiring with
            status := .expired
            endedAt := some 100000
            endReason := some "token_expired" } :=
  ⟨(sweep_deterministic 60000 100000 wSweepList).2.1,
   ((sweep_deterministic 60000 100000 wSweepList).1 (streamSessionKey "t" "c" "s1")
      wExpiring (by decide)).1 (by decide)⟩

/-! ## C6: playback request check order -/

/-- C6: the playback handlers run token verification (with its internal
order), then the scope check, then stream presence/status, then session
observation, then the asset read; the first failing check determines the
response. A token failure produces exactly that error for every state (no
stream is consulted, no session touched — the state is returned unchanged);
a scope mismatch yields 403 `PLAYBACK_TOKEN_SCOPE_MISMATCH` before any
stream lookup; with a valid token, an absent stream yields 404
`PLAYBACK_STREAM_NOT_FOUND`, a `provisioning` entry 409
`PLAYBACK_STREAM_NOT_READY` and a `stopped` entry 410
`PLAYBACK_STREAM_STOPPED`, each for every session-map content (in
particular before any session is created or observed, the state coming back
identical). -/
theorem playback_check_order :
    (∀ env cfg asset st t c token nowMs outs err,
        parseAndValidatePlaybackToken env token t c nowMs = .error err →
        playbackRequest env cfg asset st t c token nowMs outs = (st, .error err))
    ∧ (∀ env tok t c nowMs parsed, tok ≠ "" →
        verifyTokenDetailed env tok nowMs = .ok parsed →
        (parsed.cid ≠ c ∨ parsed.tid ≠ t) →
        parseAndValidatePlaybackToken env (some tok) t c nowMs
          = .error ⟨403, "PLAYBACK_TOKEN_SCOPE_MISMATCH"⟩)
    ∧ (∀ env cfg asset st t c token nowMs outs parsed,
        parseAndValidatePlaybackToken env token t c nowMs = .ok parsed →
        st.streams.get (streamKey t c) = none →
        playbackRequest env cfg asset st t c token nowMs outs
          = (st, .error ⟨404, "PLAYBACK_STREAM_NOT_FOUND"⟩))
    ∧ (∀ env cfg asset st t c token nowMs outs parsed e,
        parseAndValidatePlaybackToken env token t c nowMs = .ok parsed →
        st.streams.get (streamKey t c) = some e → e.status = .provisioning →
        playbackRequest env cfg asset st t c token nowMs outs
          = (st, .error ⟨409, "PLAYBACK_STREAM_NOT_READY"⟩))
    ∧ (∀ env cfg asset st t c token nowMs outs parsed e,
        parseAndValidatePlaybackToken env token t c nowMs = .ok parsed →
        st.streams.get (streamKey t c) = some e → e.status = .stopped →
        playbackRequest env cfg asset st t c token nowMs outs
          = (st, .error ⟨410, "PLAYBACK_STREAM_STOPPED"⟩)) := by
  refine ⟨?_, ?_, ?_, ?_, ?_⟩
  · intro env cfg asset st t c token nowMs outs err h
    simp [playbackRequest, h]
  · intro env tok t c nowMs parsed htok hver hscope
    unfold parseAndValidatePlaybackToken
    simp only [isEmpty_false_of_ne htok, hver]
    rw [if_neg (by simp [isEmpty_false_of_ne htok])]
    rw [if_pos hscope]
  · intro env cfg asset st t c token nowMs outs parsed hp hget
    simp [playbackRequest, hp, hget, assertStreamReady]
  · intro env cfg asset st t c token nowMs outs parsed e hp hget hst
    simp [playbackRequest, hp, hget, assertStreamReady, hst]
  · intro env cfg asset st t c token nowMs outs parsed e hp hget hst
    simp [playbackRequest, hp, hget, assertStreamReady, hst]

/-- A `provisioning` entry for the `playback_check_order` witness. -/
def wEntryProvisioning : StreamEntry :=
  { wEntryReady with status := .provisioning }

/-- A `stopped` entry for the `playback_check_order` witness. -/
def wEntryStopped : StreamEntry :=
  { wEntryReady with status := .stopped }

/-- Witness for `playback_check_order`: the valid token `"pl.sig"` against an
absent, a `provisioning` and a `stopped` stream, and a scope-mismatching
request path. -/
theorem playback_check_order_witness :
    playbackRequest wEnv wCfg .manifest ⟨[], [], []⟩ "t" "c" (some "pl.sig") 0
        (fun _ => .ok "M")
      = (⟨[], [], []⟩, .error ⟨404, "PLAYBACK_STREAM_NOT_FOUND"⟩)
    ∧ playbackRequest wEnv wCfg .manifest
        ⟨[(streamKey "t" "c", wEntryProvisioning)], [], []⟩ "t" "c" (some "pl.sig") 0
        (fun _ => .ok "M")
      = (⟨[(streamKey "t" "c", wEntryProvisioning)], [], []⟩,
         .error ⟨409, "PLAYBACK_STREAM_NOT_READY"⟩)
    ∧ playbackRequest wEnv wCfg .manifest
        ⟨[(streamKey "t" "c", wEntryStopped)], [], []⟩ "t" "c" (some "pl.sig") 0
        (fun _ => .ok "M")
      = (⟨[(streamKey "t" "c", wEntryStopped)], [], []⟩,
         .error ⟨410, "PLAYBACK_STREAM_STOPPED"⟩)
    ∧ parseAndValidatePlaybackToken wEnv (some "pl.sig") "other" "c" 0
      = .error ⟨403, "PLAYBACK_TOKEN_SCOPE_MISMATCH"⟩ :=
  ⟨playback_check_order.2.2.1 wEnv wCfg .manifest ⟨[], [], []⟩ "t" "c" (some "pl.sig") 0
      (fun _ => .ok "M") wClaims (by decide) (by decide),
   playback_check_order.2.2.2.1 wEnv wCfg .manifest
      ⟨[(streamKey "t" "c", wEntryProvisioning)], [], []⟩ "t" "c" (some "pl.sig") 0
      (fun _ => .ok "M") wClaims wEntryProvisioning (by decide) (by decide) (by decide),
   playback_check_order.2.2.2.2 wEnv wCfg .manifest
      ⟨[(streamKey "t" "c", wEntryStopped)], [], []⟩ "t" "c" (some "pl.sig") 0
      (fun _ => .ok "M") wClaims wEntryStopped (by decide) (by decide) (by decide),
   playback_check_order.2.1 wEnv "pl.sig" "other" "c" 0 wClaims (by decide) (by decide)
      (Or.inr (by decide))⟩

/-! ## C3: session terminal stickiness -/

/-- Position of a session status in the lifecycle order
`issued → active → {ended, expired}`. -/
def statusRank : SessionStatus → Nat
  | .issued => 0
  | .active => 1
  | .ended => 2
  | .expired => 2

theorem statusRank_le_two (s : SessionStatus) : statusRank s ≤ 2 := by
  cases s <;> simp [statusRank]

theorem upsert_preserves_terminal (sessions : Store StreamSessionEntry)
    (t c sid sub : String) (exp iat nowMs : Int) (k : String) (s : StreamSessionEntry)
    (sessions' : Store StreamSessionEntry)
    (hs : sessions.get k = some s)
    (hterm : s.status = .ended ∨ s.status = .expired)
    (hup : upsertActiveSession sessions t c sid sub exp iat nowMs = .ok sessions') :
    sessions'.get k = some s := by
  by_cases hk : k = streamSessionKey t c sid
  · exfalso
    subst hk
    unfold upsertActiveSession at hup
    simp [hs, hterm] at hup
  · unfold upsertActiveSession at hup
    cases hex : sessions.get (streamSessionKey t c sid) with
    | some s0 =>
      simp only [hex] at hup
      by_cases ht0 : s0.status = .ended ∨ s0.status = .expired
      · simp [ht0] at hup
      · rw [if_neg ht0] at hup
        cases hup
        rw [Store.get_set]
        simp [hk, hs]
    | none =>
      simp only [hex] at hup
      cases hup
      rw [Store.get_set]
      simp [hk, hs]

theorem sweep_preserves_terminal (idleTtl nowMs : Int)
    (sessions : Store StreamSessionEntry) (k : String) (s : StreamSessionEntry)
    (hs : sessions.get k = some s)
    (hterm : s.status = .ended ∨ s.status = .expired) :
    (sweepSessions idleTtl nowMs sessions).1.get k = some s := by
  have hnot1 : ¬ ((s.status = .issued ∨ s.status = .active) ∧ s.expiresAt ≤ nowMs) := by
    rintro ⟨h1, _⟩
    rcases hterm with h2 | h2 <;> rw [h2] at h1 <;> rcases h1 with h1 | h1 <;> simp at h1
  have hnot2 : ¬ (s.status = .active ∧ nowMs - s.lastSeenAt > idleTtl) := by
    rintro ⟨h1, _⟩
    rcases hterm with h2 | h2 <;> rw [h2] at h1 <;> simp at h1
  exact ((sweep_deterministic idleTtl nowMs sessions).1 k s hs).2.2 hnot1 hnot2

theorem deprovision_preserves_terminal (t c : String) (nowMs : Int)
    (st : GatewayState) (k : String) (s : StreamSessionEntry)
    (hs : st.sessions.get k = some s)
    (hterm : s.status = .ended ∨ s.status = .expired) :
    (deprovision t c nowMs st).1.sessions.get k = some s := by
  unfold deprovision
  cases hget0 : st.streams.get (streamKey t c) with
  | none => simpa [hget0] using hs
  | some e =>
    have hcond : ¬ (s.tenantId = t ∧ s.cameraId = c
        ∧ (s.status = .issued ∨ s.status = .active)) := by
      rintro ⟨_, _, h1⟩
      rcases hterm with h2 | h2 <;> rw [h2] at h1 <;> rcases h1 with h1 | h1 <;> simp at h1
    simp [hget0, Store.get_mapValues, hs, hcond]

theorem playback_preserves_terminal (env : CryptoEnv) (cfg : GatewayConfig)
    (asset : AssetKind) (st : GatewayState) (t c : String) (token : Option String)
    (nowMs : Int) (outs : Nat → ReadOutcome) (k : String) (s : StreamSessionEntry)
    (hs : st.sessions.get k = some s)
    (hterm : s.status = .ended ∨ s.status = .expired) :
    (playbackRequest env cfg asset st t c token nowMs outs).1.sessions.get k = some s := by
  cases hp : parseAndValidatePlaybackToken env token t c nowMs with
  | error e => simp [playbackRequest, hp, hs]
  | ok parsed =>
    cases ha : assertStreamReady (st.streams.get (streamKey t c)) with
    | error e2 => simp [playbackRequest, hp, ha, hs]
    | ok u =>
      cases hu : upsertActiveSession st.sessions t c parsed.sid parsed.sub
          parsed.exp parsed.iat nowMs with
      | error e3 => simp [playbackRequest, hp, ha, hu, hs]
      | ok s1 =>
        have hpres := upsert_preserves_terminal st.sessions t c parsed.sid parsed.sub
          parsed.exp parsed.iat nowMs k s s1 hs hterm hu
        cases hres : (readWithRetry cfg outs).result with
        | ok content => simp [playbackRequest, hp, ha, hu, hres, hpres]
        | error e4 => simp [playbackRequest, hp, ha, hu, hres, hpres]

theorem sweep_rank_monotone (idleTtl nowMs : Int)
    (sessions : Store StreamSessionEntry) (k : String) (s s' : StreamSessionEntry)
    (hs : sessions.get k = some s)
    (hs' : (sweepSessions idleTtl nowMs sessions).1.get k = some s') :
    statusRank s.status ≤ statusRank s'.status := by
  have hfold := sweep_fold idleTtl nowMs sessions ([], 0, 0)
  have hmap : (sweepSessions idleTtl nowMs sessions).1
      = Store.mapValues (fun x => (sweepSessionStep idleTtl nowMs x).1) sessions := by
    unfold sweepSessions
    rw [hfold]
    simp
  rw [hmap, Store.get_mapValues, hs] at hs'
  simp only [Option.map_some'] at hs'
  cases hs'
  unfold sweepSessionStep
  split_ifs with h1 h2
  · simpa [statusRank] using statusRank_le_two s.status
  · simpa [statusRank] using statusRank_le_two s.status
  · exact le_refl _

theorem upsert_rank_monotone (sessions : Store StreamSessionEntry)
    (t c sid sub : String) (exp iat nowMs : Int) (k : String) (s s' : StreamSessionEntry)
    (sessions' : Store StreamSessionEntry)
    (hs : sessions.get k = some s)
    (hup : upsertActiveSession sessions t c sid sub exp iat nowMs = .ok sessions')
    (hs' : sessions'.get k = some s') :
    statusRank s.status ≤ statusRank s'.status := by
  by_cases hk : k = streamSessionKey t c sid
  · subst hk
    unfold upsertActiveSession at hup
    simp only [hs] at hup
    by_cases ht0 : s.status = .ended ∨ s.status = .expired
    · simp [ht0] at hup
    · rw [if_neg ht0] at hup
      cases hup
      rw [Store.get_set, if_pos rfl] at hs'
      cases hs'
      have : statusRank s.status ≤ 1 := by
        cases hx : s.status <;> simp [statusRank] <;> exact absurd (by simp [hx]) ht0
      simpa [statusRank] using this
  · have : sessions'.get k = some s := by
      unfold upsertActiveSession at hup
      cases hex : sessions.get (streamSessionKey t c sid) with
      | some s0 =>
        simp only [hex] at hup
        by_cases ht0 : s0.status = .ended ∨ s0.status = .expired
        · simp [ht0] at hup
        · rw [if_neg ht0] at hup
          cases hup
          rw [Store.get_set]
          simp [hk, hs]
      | none =>
        simp only [hex] at hup
        cases hup
        rw [Store.get_set]
        simp [hk, hs]
    rw [this] at hs'
    cases hs'
    exact le_refl _

theorem deprovision_rank_monotone (t c : String) (nowMs : Int)
    (st : GatewayState) (k : String) (s s' : StreamSessionEntry)
    (hs : st.sessions.get k = some s)
    (hs' : (deprovision t c nowMs st).1.sessions.get k = some s') :
    statusRank s.status ≤ statusRank s'.status := by
  unfold deprovision at hs'
  cases hget0 : st.streams.get (streamKey t c) with
  | none =>
    simp only [hget0, hs] at hs'
    cases hs'
    exact le_refl _
  | some e =>
    simp only [hget0, Store.get_mapValues, hs, Option.map_some'] at hs'
    cases hs'
    split_ifs with h1
    · simpa [statusRank] using statusRank_le_two s.status
    · exact le_refl _

/-- A state with a terminal (`ended`) session for `("t", "c", "s")` but no
stream entry at all. -/
def wStClosedNoStream : GatewayState :=
  { streams := [], sessions := [(streamSessionKey "t" "c" "s", wEndedSession)]
    readRetryCounters := [] }

/-- Counterexample to C3 as stated: the session `("t", "c", "s")` is
terminal (`ended`) and the token `"pl.sig"` passes signature, schema, expiry
and scope checks, yet the playback request does **not** fail with 401
`PLAYBACK_SESSION_CLOSED` — the stream checks run first, and with no stream
entry the request fails with 404 `PLAYBACK_STREAM_NOT_FOUND` (a `stopped`
entry would likewise give 410 before the session is consulted). -/
theorem session_closed_counterexample :
    wStClosedNoStream.sessions.get (streamSessionKey "t" "c" "s") = some wEndedSession
    ∧ wEndedSession.status = .ended
    ∧ verifyTokenDetailed wEnv "pl.sig" 0 = .ok wClaims
    ∧ (playbackRequest wEnv wCfg .manifest wStClosedNoStream "t" "c" (some "pl.sig") 0
        (fun _ => .ok "M")).2 = .error ⟨404, "PLAYBACK_STREAM_NOT_FOUND"⟩
    ∧ (playbackRequest wEnv wCfg .manifest wStClosedNoStream "t" "c" (some "pl.sig") 0
        (fun _ => .ok "M")).2 ≠ .error ⟨401, "PLAYBACK_SESSION_CLOSED"⟩ := by
  refine ⟨by decide, by decide, by decide, by decide, by decide⟩

/-- C3 (amended): once a session is `ended` or `expired`, a playback request
bearing its `sid` and a fully valid token fails with 401
`PLAYBACK_SESSION_CLOSED` **provided the stream entry is present with
status `ready`** (otherwise the earlier stream checks of C6 answer first),
and the request leaves the state unchanged; moreover no operation moves a
session out of a terminal state — sweep, deprovision and playback keep
terminal sessions byte-identical — and every operation preserves the status
order `issued → active → {ended, expired}` (the rank of a session's status
never decreases). -/
theorem session_terminal_sticky :
    (∀ env cfg asset st t c token nowMs outs parsed e s,
        parseAndValidatePlaybackToken env token t c nowMs = .ok parsed →
        st.streams.get (streamKey t c) = some e → e.status = .ready →
        st.sessions.get (streamSessionKey t c parsed.sid) = some s →
        (s.status = .ended ∨ s.status = .expired) →
        playbackRequest env cfg asset st t c token nowMs outs
          = (st, .error ⟨401, "PLAYBACK_SESSION_CLOSED"⟩))
    ∧ (∀ idleTtl nowMs sessions k s, Store.get sessions k = some s →
        (s.status = .ended ∨ s.status = .expired) →
        (sweepSessions idleTtl nowMs sessions).1.get k = some s)
    ∧ (∀ (t c : String) (nowMs : Int) (st : GatewayState) (k : String)
        (s : StreamSessionEntry), st.sessions.get k = some s →
        (s.status = .ended ∨ s.status = .expired) →
        (deprovision t c nowMs st).1.sessions.get k = some s)
    ∧ (∀ (env : CryptoEnv) (cfg : GatewayConfig) (asset : AssetKind) (st : GatewayState)
        (t c : String) (token : Option String) (nowMs : Int) (outs : Nat → ReadOutcome)
        (k : String) (s : StreamSessionEntry),
        st.sessions.get k = some s →
        (s.status = .ended ∨ s.status = .expired) →
        (playbackRequest env cfg asset st t c token nowMs outs).1.sessions.get k = some s)
    ∧ (∀ idleTtl nowMs sessions k s s', Store.get sessions k = some s →
        (sweepSessions idleTtl nowMs sessions).1.get k = some s' →
        statusRank s.status ≤ statusRank s'.status)
    ∧ (∀ sessions t c sid sub exp iat nowMs k s s' sessions',
        Store.get sessions k = some s →
        upsertActiveSession sessions t c sid sub exp iat nowMs = .ok sessions' →
        Store.get sessions' k = some s' →
        statusRank s.status ≤ statusRank s'.status)
    ∧ (∀ (t c : String) (nowMs : Int) (st : GatewayState) (k : String)
        (s s' : StreamSessionEntry), st.sessions.get k = some s →
        (deprovision t c nowMs st).1.sessions.get k = some s' →
        statusRank s.status ≤ statusRank s'.status) := by
  refine ⟨?_, ?_, ?_, ?_, ?_, ?_, ?_⟩
  · intro env cfg asset st t c token nowMs outs parsed e s hp hget hready hsess hterm
    have hassert : assertStreamReady (st.streams.get (streamKey t c)) = .ok () := by
      rw [hget]
      simp [assertStreamReady, hready]
    have hup : upsertActiveSession st.sessions t c parsed.sid parsed.sub
        parsed.exp parsed.iat nowMs = .error ⟨401, "PLAYBACK_SESSION_CLOSED"⟩ := by
      unfold upsertActiveSession
      simp [hsess, hterm]
    simp [playbackRequest, hp, hassert, hup]
  · intro idleTtl nowMs sessions k s hs hterm
    exact sweep_preserves_terminal idleTtl nowMs sessions k s hs hterm
  · intro t c nowMs st k s hs hterm
    exact deprovision_preserves_terminal t c nowMs st k s hs hterm
  · intro env cfg asset st t c token nowMs outs k s hs hterm
    exact playback_preserves_terminal env cfg asset st t c token nowMs outs k s hs hterm
  · intro idleTtl nowMs sessions k s s' hs hs'
    exact sweep_rank_monotone idleTtl nowMs sessions k s s' hs hs'
  · intro sessions t c sid sub exp iat nowMs k s s' sessions' hs hup hs'
    exact upsert_rank_monotone sessions t c sid sub exp iat nowMs k s s' sessions' hs hup hs'
  · intro t c nowMs st k s s' hs hs'
    exact deprovision_rank_monotone t c nowMs st k s s' hs hs'



/-- A state with a `ready` stream for `("t", "c")` and a terminal session
for `("t", "c", "s")`. -/
def wStClosedReady : GatewayState :=
  { streams := [(streamKey "t" "c", wEntryReady)]
    sessions := [(streamSessionKey "t" "c" "s", wEndedSession)]
    readRetryCounters := [] }

/-- Witness for `session_terminal_sticky`: with the stream `ready` and the
session `ended`, the valid token `"pl.sig"` is answered with 401
`PLAYBACK_SESSION_CLOSED` and the state is unchanged. -/
theorem session_terminal_sticky_witness :
    playbackRequest wEnv wCfg .manifest wStClosedReady "t" "c" (some "pl.sig") 0
        (fun _ => .ok "M")
      = (wStClosedReady, .error ⟨401, "PLAYBACK_SESSION_CLOSED"⟩) := by
  exact session_terminal_sticky.1 wEnv wCfg AssetKind.manifest wStClosedReady "t" "c"
    (some "pl.sig") 0 (fun _ => ReadOutcome.ok "M") wClaims wEntryReady wEndedSession
    (by decide) (by decide) (by decide) (by decide) (Or.inl (by decide))

/-! ## C8: playback read retry policy -/

theorem bumpCounter_get (m : Store Nat) (k : String) (n : Nat) :
    ((bumpCounter m k n).get k).getD 0 = (m.get k).getD 0 + n := by
  unfold bumpCounter
  by_cases h : n = 0
  · simp [h]
  · simp [h, Store.get_set]

theorem readWithRetryGo_zero (m base maxW : Nat) (outs : Nat → ReadOutcome)
    (attempt : Nat) (waits : List Nat) :
    readWithRetryGo m base maxW outs 0 attempt waits
      = match outs attempt with
        | .ok v => { result := .ok v, retries := attempt, waits := waits }
        | .fsError code =>
          { result := .error code, retries := attempt, waits := waits } := by
  unfold readWithRetryGo
  cases outs attempt with
  | ok v => rfl
  | fsError code =>
    show (if retryableCode code = false ∨ m ≤ attempt then
        ({ result := Except.error code, retries := attempt, waits := waits } : ReadAttempts)
      else { result := Except.error code, retries := attempt, waits := waits })
      = { result := Except.error code, retries := attempt, waits := waits }
    exact ite_self _

theorem readWithRetryGo_succ (m base maxW : Nat) (outs : Nat → ReadOutcome)
    (fuel attempt : Nat) (waits : List Nat) :
    readWithRetryGo m base maxW outs (fuel + 1) attempt waits
      = match outs attempt with
        | .ok v => { result := .ok v, retries := attempt, waits := waits }
        | .fsError code =>
          if retryableCode code = false ∨ m ≤ attempt then
            { result := .error code, retries := attempt, waits := waits }
          else
            readWithRetryGo m base maxW outs fuel (attempt + 1)
              (waits ++ [min (base * 2 ^ attempt) maxW]) := by
  conv_lhs => rw [readWithRetryGo]

theorem readWithRetryGo_retries_le (m base maxW : Nat) (outs : Nat → ReadOutcome) :
    ∀ (fuel attempt : Nat) (waits : List Nat), attempt ≤ m →
      (readWithRetryGo m base maxW outs fuel attempt waits).retries ≤ m := by
  intro fuel
  induction fuel with
  | zero =>
    intro attempt waits hle
    rw [readWithRetryGo_zero]
    cases outs attempt <;> simpa using hle
  | succ fuel ih =>
    intro attempt waits hle
    rw [readWithRetryGo_succ]
    cases outs attempt with
    | ok v => simpa using hle
    | fsError c =>
      show (if retryableCode c = false ∨ m ≤ attempt then
          ({ result := Except.error c, retries := attempt, waits := waits } : ReadAttempts)
        else readWithRetryGo m base maxW outs fuel (attempt + 1)
          (waits ++ [min (base * 2 ^ attempt) maxW])).retries ≤ m
      by_cases hg : retryableCode c = false ∨ m ≤ attempt
      · rw [if_pos hg]
        exact hle
      · rw [if_neg hg]
        push_neg at hg
        exact ih (attempt + 1) _ (by omega)

theorem readWithRetryGo_exhaust (m base maxW : Nat) (outs : Nat → ReadOutcome)
    (h : ∀ i, i ≤ m → ∃ c, outs i = .fsError c ∧ retryableCode c = true) :
    ∀ (fuel attempt : Nat) (waits : List Nat), m = attempt + fuel →
      (readWithRetryGo m base maxW outs fuel attempt waits).retries = m
      ∧ (readWithRetryGo m base maxW outs fuel attempt waits).waits
          = waits ++ (List.range fuel).map
              (fun k => min (base * 2 ^ (attempt + k)) maxW)
      ∧ ∃ c, (readWithRetryGo m base maxW outs fuel attempt waits).result = .error c
          ∧ retryableCode c = true := by
  intro fuel
  induction fuel with
  | zero =>
    intro attempt waits hm
    obtain ⟨c, hc, hr⟩ := h attempt (by omega)
    rw [readWithRetryGo_zero, hc]
    refine ⟨?_, ?_, c, ?_, hr⟩
    · show attempt = m
      omega
    · show waits = waits ++ (List.range 0).map
        (fun k => min (base * 2 ^ (attempt + k)) maxW)
      simp
    · show (Except.error c : Except String String) = Except.error c
      rfl
  | succ fuel ih =>
    intro attempt waits hm
    obtain ⟨c, hc, hr⟩ := h attempt (by omega)
    have hg : ¬ (retryableCode c = false ∨ m ≤ attempt) := by
      push_neg
      exact ⟨by simp [hr], by omega⟩
    rw [readWithRetryGo_succ, hc]
    have hred : (match (ReadOutcome.fsError c : ReadOutcome) with
        | .ok v => ({ result := .ok v, retries := attempt, waits := waits } : ReadAttempts)
        | .fsError code =>
          if retryableCode code = false ∨ m ≤ attempt then
            { result := .error code, retries := attempt, waits := waits }
          else
            readWithRetryGo m base maxW outs fuel (attempt + 1)
              (waits ++ [min (base * 2 ^ attempt) maxW]))
        = readWithRetryGo m base maxW outs fuel (attempt + 1)
            (waits ++ [min (base * 2 ^ attempt) maxW]) := by
      rw [show (match (ReadOutcome.fsError c : ReadOutcome) with
          | .ok v => ({ result := .ok v, retries := attempt, waits := waits } : ReadAttempts)
          | .fsError code =>
            if retryableCode code = false ∨ m ≤ attempt then
              { result := .error code, retries := attempt, waits := waits }
            else
              readWithRetryGo m base maxW outs fuel (attempt + 1)
                (waits ++ [min (base * 2 ^ attempt) maxW]))
          = if retryableCode c = false ∨ m ≤ attempt then
              { result := .error c, retries := attempt, waits := waits }
            else
              readWithRetryGo m base maxW outs fuel (attempt + 1)
                (waits ++ [min (base * 2 ^ attempt) maxW]) from rfl]
      rw [if_neg hg]
    rw [hred]
    obtain ⟨ih1, ih2, ih3⟩ := ih (attempt + 1)
      (waits ++ [min (base * 2 ^ attempt) maxW]) (by omega)
    refine ⟨ih1, ?_, ih3⟩
    rw [ih2, List.append_assoc]
    congr 1
    rw [List.range_succ_eq_map, List.map_cons, List.map_map]
    simp only [List.singleton_append, Nat.add_zero]
    congr 1
    apply List.map_congr_left
    intro a _
    simp only [Function.comp]
    rw [show attempt + 1 + a = attempt + (a + 1) from by omega]

/-- C8: an asset read is retried only on the filesystem error codes ENOENT,
EAGAIN, EBUSY; a non-retryable error on the first attempt propagates
immediately with zero retries and no backoff sleep; the number of retries
(and of retry-counter increments, one per retry) never exceeds the
configured maximum; when every attempt fails retryably the reader is retried
exactly max-retries times, sleeping `min(base * 2 ^ (attempt - 1), max)`
before retry number `attempt`, and the error propagates; the per-
(tenant, camera, asset) retry counter grows by exactly the number of
retries; and an exhausted read is answered 404 with
`PLAYBACK_MANIFEST_NOT_FOUND` for the manifest and
`PLAYBACK_SEGMENT_NOT_FOUND` for the segment. -/
theorem read_retry_policy :
    (∀ (code : String), retryableCode code = true
        ↔ (code = "ENOENT" ∨ code = "EAGAIN" ∨ code = "EBUSY"))
    ∧ (∀ (cfg : GatewayConfig) (outs : Nat → ReadOutcome) (c : String),
        outs 0 = .fsError c → retryableCode c = false →
        readWithRetry cfg outs = { result := .error c, retries := 0, waits := [] })
    ∧ (∀ (cfg : GatewayConfig) (outs : Nat → ReadOutcome),
        (readWithRetry cfg outs).retries ≤ cfg.playbackReadRetries)
    ∧ (∀ (cfg : GatewayConfig) (outs : Nat → ReadOutcome),
        (∀ i, i ≤ cfg.playbackReadRetries →
          ∃ c, outs i = .fsError c ∧ retryableCode c = true) →
        (readWithRetry cfg outs).retries = cfg.playbackReadRetries
        ∧ (readWithRetry cfg outs).waits
            = (List.range cfg.playbackReadRetries).map
                (fun k => min (cfg.playbackReadRetryBaseMs * 2 ^ k)
                  cfg.playbackReadRetryMaxMs)
        ∧ ∃ c, (readWithRetry cfg outs).result = .error c ∧ retryableCode c = true)
    ∧ (∀ (env : CryptoEnv) (cfg : GatewayConfig) (asset : AssetKind) (st : GatewayState)
        (t c : String) (tok : Option String) (nowMs : Int) (outs : Nat → ReadOutcome)
        (parsed : TokenClaims) (e : StreamEntry),
        parseAndValidatePlaybackToken env tok t c nowMs = .ok parsed →
        st.streams.get (streamKey t c) = some e → e.status = .ready →
        st.sessions.get (streamSessionKey t c parsed.sid) = none →
        ((playbackRequest env cfg asset st t c tok nowMs outs).1.readRetryCounters.get
            (retryMetricKey t c asset)).getD 0
          = (st.readRetryCounters.get (retryMetricKey t c asset)).getD 0
            + (readWithRetry cfg outs).retries)
    ∧ (∀ (env : CryptoEnv) (cfg : GatewayConfig) (st : GatewayState)
        (t c : String) (tok : Option String) (nowMs : Int) (outs : Nat → ReadOutcome)
        (parsed : TokenClaims) (e : StreamEntry) (ec : String),
        parseAndValidatePlaybackToken env tok t c nowMs = .ok parsed →
        st.streams.get (streamKey t c) = some e → e.status = .ready →
        st.sessions.get (streamSessionKey t c parsed.sid) = none →
        (readWithRetry cfg outs).result = .error ec →
        (playbackRequest env cfg .manifest st t c tok nowMs outs).2
            = .error ⟨404, "PLAYBACK_MANIFEST_NOT_FOUND"⟩
        ∧ (playbackRequest env cfg .segment st t c tok nowMs outs).2
            = .error ⟨404, "PLAYBACK_SEGMENT_NOT_FOUND"⟩) := by
  refine ⟨?_, ?_, ?_, ?_, ?_, ?_⟩
  · intro code
    unfold retryableCode
    constructor
    · intro h
      rcases Bool.or_eq_true_iff.mp h with h1 | h1
      · rcases Bool.or_eq_true_iff.mp h1 with h2 | h2
        · exact Or.inl (by simpa using h2)
        · exact Or.inr (Or.inl (by simpa using h2))
      · exact Or.inr (Or.inr (by simpa using h1))
    · rintro (h | h | h) <;> simp [h]
  · intro cfg outs c h0 hc
    unfold readWithRetry
    cases hm : cfg.playbackReadRetries with
    | zero =>
      rw [readWithRetryGo_zero]
      simp [h0]
    | succ k =>
      rw [readWithRetryGo_succ]
      simp [h0, hc]
  · intro cfg outs
    exact readWithRetryGo_retries_le cfg.playbackReadRetries cfg.playbackReadRetryBaseMs
      cfg.playbackReadRetryMaxMs outs cfg.playbackReadRetries 0 [] (Nat.zero_le _)
  · intro cfg outs h
    obtain ⟨h1, h2, h3⟩ := readWithRetryGo_exhaust cfg.playbackReadRetries
      cfg.playbackReadRetryBaseMs cfg.playbackReadRetryMaxMs outs h
      cfg.playbackReadRetries 0 [] (by omega)
    exact ⟨h1, by simpa using h2, h3⟩
  · intro env cfg asset st t c tok nowMs outs parsed e hp hget hready hsess
    have hassert : assertStreamReady (st.streams.get (streamKey t c)) = .ok () := by
      rw [hget]
      simp [assertStreamReady, hready]
    have hup : ∃ s1, upsertActiveSession st.sessions t c parsed.sid parsed.sub
        parsed.exp parsed.iat nowMs = .ok s1 := by
      unfold upsertActiveSession
      simp [hsess]
    obtain ⟨s1, hup⟩ := hup
    cases hres : (readWithRetry cfg outs).result with
    | ok content => simp [playbackRequest, hp, hassert, hup, hres, bumpCounter_get]
    | error ec => simp [playbackRequest, hp, hassert, hup, hres, bumpCounter_get]
  · intro env cfg st t c tok nowMs outs parsed e ec hp hget hready hsess hres
    have hassert : assertStreamReady (st.streams.get (streamKey t c)) = .ok () := by
      rw [hget]
      simp [assertStreamReady, hready]
    have hup : ∃ s1, upsertActiveSession st.sessions t c parsed.sid parsed.sub
        parsed.exp parsed.iat nowMs = .ok s1 := by
      unfold upsertActiveSession
      simp [hsess]
    obtain ⟨s1, hup⟩ := hup
    constructor <;> simp [playbackRequest, hp, hassert, hup, hres]

/-- A state holding only the `ready` entry for `("t", "c")`. -/
def wStReady : GatewayState :=
  { streams := [(streamKey "t" "c", wEntryReady)], sessions := [], readRetryCounters := [] }

/-- Witness for `read_retry_policy`: a non-retryable `EACCES` propagates
with zero retries; with one configured retry and persistent `ENOENT` the
backoff list is `[25]` and the manifest request is answered
`PLAYBACK_MANIFEST_NOT_FOUND`, incrementing the retry counter once. -/
theorem read_retry_policy_witness :
    readWithRetry wCfg (fun _ => .fsError "EACCES")
        = { result := .error "EACCES", retries := 0, waits := [] }
    ∧ ((readWithRetry wCfg (fun _ => .fsError "ENOENT")).retries = 1
      ∧ (readWithRetry wCfg (fun _ => .fsError "ENOENT")).waits
          = (List.range 1).map (fun k => min (25 * 2 ^ k) 250)
      ∧ ∃ c, (readWithRetry wCfg (fun _ => .fsError "ENOENT")).result = .error c
          ∧ retryableCode c = true)
    ∧ ((playbackRequest wEnv wCfg .manifest wStReady "t" "c" (some "pl.sig") 0
          (fun _ => .fsError "ENOENT")).1.readRetryCounters.get
            (retryMetricKey "t" "c" .manifest)).getD 0
        = (wStReady.readRetryCounters.get (retryMetricKey "t" "c" .manifest)).getD 0
          + (readWithRetry wCfg (fun _ => .fsError "ENOENT")).retries
    ∧ (playbackRequest wEnv wCfg .manifest wStReady "t" "c" (some "pl.sig") 0
          (fun _ => .fsError "ENOENT")).2 = .error ⟨404, "PLAYBACK_MANIFEST_NOT_FOUND"⟩ :=
  ⟨read_retry_policy.2.1 wCfg (fun _ => .fsError "EACCES") "EACCES" rfl (by decide),
   read_retry_policy.2.2.2.1 wCfg (fun _ => .fsError "ENOENT")
     (fun i _ => ⟨"ENOENT", rfl, rfl⟩),
   read_retry_policy.2.2.2.2.1 wEnv wCfg AssetKind.manifest wStReady "t" "c"
     (some "pl.sig") 0 (fun _ => ReadOutcome.fsError "ENOENT") wClaims wEntryReady
     (by decide) (by decide) (by decide) (by decide),
   (read_retry_policy.2.2.2.2.2 wEnv wCfg wStReady "t" "c"
     (some "pl.sig") 0 (fun _ => ReadOutcome.fsError "ENOENT") wClaims wEntryReady
     "ENOENT" (by decide) (by decide) (by decide) (by decide) (by decide)).1⟩

/-! ## C10: provision of a stopped stream -/

/-- C10: when the stored entry for `(tenantId, cameraId)` is `stopped` and a
`POST /provision` arrives with `rtspUrl` and `source` equal to the stored
values, the handler takes the idempotent path — the idempotency comparison
never looks at `status` — so it returns the stored entry with
`reprovisioned = false`, the whole state (hence the `stopped` status and the
version) is unchanged, and playback for that stream still answers 410
`PLAYBACK_STREAM_STOPPED`; only a provision whose `rtspUrl` or `source`
differs stores a fresh `ready` entry (with `version + 1`), returning the
stream to service. -/
theorem provision_stopped_idempotent :
    (∀ (body : ProvisionBody) (nowMs : Int) (st : GatewayState) (e : StreamEntry),
        st.streams.get (streamKey body.tenantId body.cameraId) = some e →
        e.status = .stopped →
        provisionMatches e body.rtspUrl (bodySource body) →
        provision body nowMs st
          = (st, { entry := e
                   playbackPath := "/playback/" ++ body.tenantId ++ "/"
                     ++ body.cameraId ++ "/index.m3u8"
                   reprovisioned := false })
        ∧ (provision body nowMs st).1.streams.get
            (streamKey body.tenantId body.cameraId) = some e)
    ∧ (∀ (env : CryptoEnv) (cfg : GatewayConfig) (asset : AssetKind) (st : GatewayState)
        (t c : String) (token : Option String) (nowMs : Int) (outs : Nat → ReadOutcome)
        (parsed : TokenClaims) (e : StreamEntry),
        parseAndValidatePlaybackToken env token t c nowMs = .ok parsed →
        st.streams.get (streamKey t c) = some e → e.status = .stopped →
        playbackRequest env cfg asset st t c token nowMs outs
          = (st, .error ⟨410, "PLAYBACK_STREAM_STOPPED"⟩))
    ∧ (∀ (body : ProvisionBody) (nowMs : Int) (st : GatewayState) (e : StreamEntry),
        st.streams.get (streamKey body.tenantId body.cameraId) = some e →
        ¬ provisionMatches e body.rtspUrl (bodySource body) →
        ∃ e2, (provision body nowMs st).1.streams.get
            (streamKey body.tenantId body.cameraId) = some e2
          ∧ e2.status = .ready ∧ e2.version = e.version + 1
          ∧ (provision body nowMs st).2.reprovisioned = true) := by
  refine ⟨?_, ?_, ?_⟩
  · intro body nowMs st e hget hstopped hm
    have heq := provision_matching body nowMs st e hget hm
    exact ⟨heq, by rw [heq]; exact hget⟩
  · intro env cfg asset st t c token nowMs outs parsed e hp hget hst
    simp [playbackRequest, hp, hget, assertStreamReady, hst]
  · intro body nowMs st e hget hm
    unfold bodySource at hm
    refine ⟨{ tenantId := body.tenantId, cameraId := body.cameraId, rtspUrl := body.rtspUrl
              source := { transport := body.transport, codecHint := body.codecHint
                          targetProfiles := body.targetProfiles }
              version := e.version + 1, status := .ready
              health := buildHealth .online none nowMs, updatedAt := nowMs }, ?_, rfl, rfl, ?_⟩
    · unfold provision
      simp [hget, hm, Store.get_set]
    · unfold provision
      simp [hget, hm]

/-- The provision body whose configuration equals `wEntryStopped`. -/
def wBodyX : ProvisionBody :=
  { wBody with rtspUrl := "rtsp://x" }

/-- A state holding the `stopped` entry for `("t", "c")`. -/
def wStStopped : GatewayState :=
  { streams := [(streamKey "t" "c", wEntryStopped)], sessions := [], readRetryCounters := [] }

/-- Witness for `provision_stopped_idempotent`: re-provisioning the stopped
`("t", "c")` entry with its stored configuration leaves the state untouched
with `reprovisioned = false`, and playback still answers 410. -/
theorem provision_stopped_idempotent_witness :
    provision wBodyX 0 wStStopped
        = (wStStopped, { entry := wEntryStopped
                         playbackPath := "/playback/" ++ "t" ++ "/" ++ "c" ++ "/index.m3u8"
                         reprovisioned := false })
    ∧ playbackRequest wEnv wCfg .manifest wStStopped "t" "c" (some "pl.sig") 0
          (fun _ => .ok "M")
        = (wStStopped, .error ⟨410, "PLAYBACK_STREAM_STOPPED"⟩) :=
  ⟨(provision_stopped_idempotent.1 wBodyX 0 wStStopped wEntryStopped
      (by decide) (by decide) (by decide)).1,
   provision_stopped_idempotent.2.1 wEnv wCfg AssetKind.manifest wStStopped "t" "c"
      (some "pl.sig") 0 (fun _ => ReadOutcome.ok "M") wClaims wEntryStopped
      (by decide) (by decide) (by decide)⟩
